import Mathlib

/-!
Verification of the WhatsAppAssistant timed-message scheduler.

This file shallowly embeds the scheduling core of the repository:

* `timed_messages/core/models.py`       — the `ScheduledMessage` record and its statuses;
* `timed_messages/infra/repo_sql.py` and `timed_messages/infra/repo_sql_queries.py`
  — the production Postgres repository; each SQL `UPDATE ... WHERE` is modelled as a
  row-wise map over the table, and `rowcount` as `countP` of the matched rows;
* `timed_messages/core/service.py`      — `TimedMessageService` (schedule, cancel, dispatch);
* `timed_messages/core/whatsapp_time.py` and
  `timed_messages/core/whatsapp_event_service.py` — the natural-time parser and the
  conversational flow handler;
* `shared/auth.py`, `shared/auth_service.py`, `shared/whatsapp_formatting.py`,
  `auth_service/app.py` — the per-sender auth subsystem;
* `timed_messages/core/flow_store.py`   — the TTL-keyed flow store.

Conventions of the embedding:

* instants are integers (seconds); a Python `datetime` is a `DTime` carrying its
  instant and whether it is timezone-aware;
* an IANA timezone is modelled as a fixed UTC offset in seconds (`off`); local wall
  time of an instant `t` is `t + off`, and a wall time `w` in that zone denotes the
  instant `w - off`;
* Python exceptions in pure code are `Except String`; in stateful code the raised
  error travels in an `Option String` component of the result;
* random values (`uuid4`, `secrets.randbelow`) are passed in as explicit arguments;
* the WhatsApp transport is modelled by its observable effect: the list of chat ids
  messages were dispatched to, plus an `Option String` argument telling whether the
  gateway call raises (`some e`) or succeeds (`none`).
-/

namespace WhatsAppAssistant

/-! ### Python string helpers

All string manipulation is implemented structurally over the character list of
the string (rather than through positional `String` library loops), so that
every definition evaluates by kernel reduction on concrete inputs. -/

/-- `str.strip()` for the ASCII whitespace the inputs here use. -/
def pyStrip (s : String) : String :=
  String.mk (((s.data.dropWhile Char.isWhitespace).reverse.dropWhile
    Char.isWhitespace).reverse)

/-- `str.lower()` (ASCII, which covers every command keyword involved). -/
def pyLower (s : String) : String :=
  String.mk (s.data.map Char.toLower)

/-- Word splitting used by `str.split()` (no separator): accumulate the current
word (reversed) and emit it at each whitespace run. -/
def pyWords : List Char → List Char → List String
  | [], cur => if cur.isEmpty then [] else [String.mk cur.reverse]
  | c :: rest, cur =>
    if c.isWhitespace then
      if cur.isEmpty then pyWords rest [] else String.mk cur.reverse :: pyWords rest []
    else pyWords rest (c :: cur)

/-- `str.split()` with no separator: split on whitespace runs, dropping empties. -/
def pySplit (s : String) : List String :=
  pyWords s.data []

/-- `str.split(sep)` for a one-character separator. -/
def splitOnChar (c : Char) : List Char → List Char → List String
  | [], cur => [String.mk cur.reverse]
  | x :: rest, cur =>
    if x = c then String.mk cur.reverse :: splitOnChar c rest []
    else splitOnChar c rest (x :: cur)

/-- `s.startswith(p)`. -/
def startsWithStr (s p : String) : Bool :=
  p.data.isPrefixOf s.data

/-- `sep.join(parts)`. -/
def strJoin (sep : String) : List String → String
  | [] => ""
  | [x] => x
  | x :: xs => x ++ sep ++ strJoin sep xs

/-- Python truthiness of an `Optional[str]`: `None` and `""` are falsy. -/
def pyFalsyOptStr : Option String → Bool
  | none => true
  | some s => s.data.isEmpty

/-- `str(x)` for an `Optional[str]` value, as applied by `str(flow.get(...))`:
`str(None)` is the literal string `"None"`. -/
def pyStrOfOpt : Option String → String
  | none => "None"
  | some s => s

/-- The digits of a string, in order (`re.sub(r"\D", "", s)`). -/
def digitsOf (s : String) : String :=
  String.mk (s.toList.filter Char.isDigit)

/-- `CommonRuntimeConfig.normalize_sender_id` (`shared/runtime_config.py`):
strip all non-digits; if nothing is left, fall back to the trimmed original. -/
def normalize_sender_id (s : String) : String :=
  let digits := digitsOf s
  if digits.data.isEmpty then pyStrip s else digits

/-! ### Data model (`timed_messages/core/models.py`) -/

/-- `MessageStatus`. -/
inductive MessageStatus where
  | scheduled
  | locked
  | sent
  | cancelled
  | failed
  deriving DecidableEq, Repr

/-- A Python `datetime`: its instant (seconds) and whether it carries a tzinfo. -/
structure DTime where
  instant : Int
  aware : Bool
  deriving DecidableEq, Repr

/-- `ScheduledMessage` (pydantic model); `id` is the opaque unique id (`uuid4`). -/
structure ScheduledMessage where
  id : Nat
  chat_id : String
  from_chat_id : Option String := none
  confirmation_message_id : Option String := none
  text : String
  send_at : DTime
  status : MessageStatus
  locked_at : Option Int := none
  sent_at : Option Int := none
  attempt_count : Nat := 0
  last_error : Option String := none
  idempotency_key : String
  source : String
  reason : Option String := none
  created_at : Int
  updated_at : Int
  deriving DecidableEq, Repr

/-- The `scheduled_messages` table, as a list of rows. -/
abbrev Db := List ScheduledMessage

/-- Row ids are unique (`id` is the primary key). -/
def idsNodup (db : Db) : Prop := (db.map ScheduledMessage.id).Nodup

instance (db : Db) : Decidable (idsNodup db) := by
  unfold idsNodup; infer_instance

/-! ### Repository (`timed_messages/infra/repo_sql.py`)

`LOCK_TIMEOUT_SECONDS = 300`.  Each SQL `UPDATE` is a map over the rows applying
the `SET` clause to the rows matched by the `WHERE` clause. -/

def LOCK_TIMEOUT_SECONDS : Int := 300

/-- `SELECT * FROM scheduled_messages WHERE id = %s` (fetchone). -/
def get_by_id (db : Db) (msgId : Nat) : Option ScheduledMessage :=
  db.find? (fun r => r.id == msgId)

/-- `SELECT * FROM scheduled_messages WHERE idempotency_key = %s` (fetchone). -/
def find_by_idempotency_key (db : Db) (key : String) : Option ScheduledMessage :=
  db.find? (fun r => r.idempotency_key == key)

/-- `INSERT INTO scheduled_messages ...`. -/
def repoCreate (db : Db) (msg : ScheduledMessage) : Db := db ++ [msg]

/-- The `WHERE` guard of `LOCK_FOR_SENDING_SQL` (besides the id match):
`status = 'SCHEDULED' OR (status = 'LOCKED' AND (locked_at IS NULL OR locked_at < stale))`. -/
def lockCond (staleBefore : Int) (r : ScheduledMessage) : Bool :=
  r.status == .scheduled ||
    (r.status == .locked &&
      (match r.locked_at with
       | none => true
       | some t => t < staleBefore))

/-- The `SET` clause of `LOCK_FOR_SENDING_SQL` applied to one row. -/
def lockRow (now : Int) (r : ScheduledMessage) : ScheduledMessage :=
  { r with status := .locked, locked_at := some now, updated_at := now }

/-- `PostgresScheduledMessageRepository.lock` — the single atomic
`UPDATE ... WHERE id = %s AND (...)` with `stale = now - 300`; returns the updated
table and `rowcount == 1`. -/
def lock_for_sending (db : Db) (msgId : Nat) (now : Int) : Db × Bool :=
  (db.map (fun r =>
     if r.id == msgId && lockCond (now - LOCK_TIMEOUT_SECONDS) r
     then lockRow now r else r),
   db.countP (fun r => r.id == msgId && lockCond (now - LOCK_TIMEOUT_SECONDS) r) == 1)

/-- `MARK_SENT_SQL` applied to one row (`updated_at` is set to `sent_at`). -/
def markSentRow (msgId : Nat) (sentAt : Int) (r : ScheduledMessage) : ScheduledMessage :=
  if r.id == msgId then
    { r with status := .sent, sent_at := some sentAt, updated_at := sentAt }
  else r

/-- `PostgresScheduledMessageRepository.mark_sent`: unconditional update by id. -/
def mark_sent (db : Db) (msgId : Nat) (sentAt : Int) : Db :=
  db.map (markSentRow msgId sentAt)

/-- `MARK_FAILED_SQL` applied to one row: also increments `attempt_count`. -/
def markFailedRow (msgId : Nat) (error : String) (now : Int) (r : ScheduledMessage) :
    ScheduledMessage :=
  if r.id == msgId then
    { r with status := .failed, last_error := some error,
             attempt_count := r.attempt_count + 1, updated_at := now }
  else r

/-- `PostgresScheduledMessageRepository.mark_failed`: unconditional update by id. -/
def mark_failed (db : Db) (msgId : Nat) (error : String) (now : Int) : Db :=
  db.map (markFailedRow msgId error now)

/-- `CANCEL_SQL` applied to one row: guarded by `status != 'SENT'`. -/
def cancelRow (msgId : Nat) (now : Int) (r : ScheduledMessage) : ScheduledMessage :=
  if r.id == msgId && !(r.status == .sent) then
    { r with status := .cancelled, updated_at := now }
  else r

/-- `PostgresScheduledMessageRepository.cancel`. -/
def repoCancel (db : Db) (msgId : Nat) (now : Int) : Db :=
  db.map (cancelRow msgId now)

/-- `SET_CONFIRMATION_MESSAGE_ID_SQL` applied to one row. -/
def setConfirmationRow (msgId : Nat) (cid : String) (now : Int) (r : ScheduledMessage) :
    ScheduledMessage :=
  if r.id == msgId then
    { r with confirmation_message_id := some cid, updated_at := now }
  else r

/-- `set_confirmation_message_id` repository operation. -/
def set_confirmation_message_id (db : Db) (msgId : Nat) (cid : String) (now : Int) : Db :=
  db.map (setConfirmationRow msgId cid now)

/-- `UPDATE_METADATA_SQL`: rewrites every non-key column (all fields except `id`
and `created_at`) of the row with the given id from the supplied record. -/
def update_metadata (db : Db) (msgId : Nat) (m : ScheduledMessage) : Db :=
  db.map (fun r =>
    if r.id == msgId then
      { r with chat_id := m.chat_id, from_chat_id := m.from_chat_id,
               confirmation_message_id := m.confirmation_message_id,
               text := m.text, send_at := m.send_at, status := m.status,
               locked_at := m.locked_at, sent_at := m.sent_at,
               attempt_count := m.attempt_count, last_error := m.last_error,
               idempotency_key := m.idempotency_key, source := m.source,
               reason := m.reason, updated_at := m.updated_at }
    else r)

/-- The `WHERE` clause of `FIND_DUE_SQL`:
`(status = 'SCHEDULED' AND send_at <= now) OR
 (status = 'LOCKED' AND send_at <= now AND (locked_at IS NULL OR locked_at < stale))`
with `stale = now - 300`. -/
def dueCond (now : Int) (r : ScheduledMessage) : Bool :=
  (r.status == .scheduled && r.send_at.instant ≤ now) ||
    (r.status == .locked && r.send_at.instant ≤ now &&
      (match r.locked_at with
       | none => true
       | some t => t < now - LOCK_TIMEOUT_SECONDS))

/-- `PostgresScheduledMessageRepository.find_due` = `list_upcoming`:
filter by `dueCond`, `ORDER BY send_at`, `LIMIT limit`. -/
def list_upcoming (db : Db) (now : Int) (limit : Nat) : Db :=
  ((db.filter (dueCond now)).mergeSort
    (fun a b => a.send_at.instant ≤ b.send_at.instant)).take limit

/-! ### Scheduling service (`timed_messages/core/service.py`, `TimedMessageService`)

`assistant_mode_enabled()` (env `WHATSAPP_ASSISTANT_MODE`) is the `assistant`
flag; the injected clock's value is `now`; `uuid4()` is the `freshId`
argument. -/

/-- `TimedMessageService.schedule_message`.  On success returns the record handed
back to the caller together with the new table. -/
def schedule_message (assistant : Bool) (db : Db) (now : Int) (freshId : Nat)
    (chat_id : String) (from_chat_id : Option String) (text : String)
    (send_at : DTime) (idempotency_key : String) (source : String)
    (reason : Option String) : Except String (ScheduledMessage × Db) :=
  if send_at.aware = false then
    .error "send_at must be timezone-aware (UTC)"
  else if send_at.instant ≤ now then
    .error "send_at must be in the future"
  else if assistant && pyFalsyOptStr from_chat_id then
    .error "from_chat_id required in assistant mode"
  else
    match find_by_idempotency_key db idempotency_key with
    | some existing => .ok (existing, db)
    | none =>
      let msg : ScheduledMessage :=
        { id := freshId, chat_id := chat_id, from_chat_id := from_chat_id,
          text := text, send_at := send_at, status := .scheduled,
          locked_at := none, sent_at := none, attempt_count := 0,
          last_error := none, idempotency_key := idempotency_key,
          source := source, reason := reason, created_at := now,
          updated_at := now }
      .ok (msg, repoCreate db msg)

/-- `TimedMessageService.validate_assistant_schedule_window`; `maxWindow` is the
configured window (`WHATSAPP_ASSISTANT_MAX_SCHEDULE_HOURS`, default 24 h) in
seconds and `hoursShown` its whole-hour count used in the error message. -/
def validate_assistant_schedule_window (assistant : Bool) (maxWindow : Int)
    (hoursShown : Nat) (send_at : DTime) (now : Int) : Except String Unit :=
  if !assistant then .ok ()
  else if send_at.instant - now ≤ maxWindow then .ok ()
  else
    .error ("Free version limit: I can only schedule within " ++
      toString hoursShown ++ " hours in assistant mode. " ++
      "Long-range scheduling uses paid Meta messaging, and I\x27m working for free :/")

/-- `TimedMessageService.cancel_message`.  Returns the new table, and the message
of the `ValueError` raised, if any (the table is untouched in that case). -/
def cancel_message (db : Db) (msgId : Nat) (now : Int) : Db × Option String :=
  match get_by_id db msgId with
  | none => (db, none)
  | some msg =>
    if msg.status = .sent then
      (db, some "Cannot cancel a sent message")
    else if msg.status = .cancelled then
      (db, none)
    else
      (repoCancel db msgId now, none)

/-- Result of one `send_message_if_due` call: the resulting table, the chat ids
the transport was invoked for (in order), and the exception propagated to the
caller, if any. -/
structure DispatchResult where
  db : Db
  transportCalls : List String
  raised : Option String
  deriving DecidableEq, Repr

/-- `TimedMessageService.send_message_if_due`.  `transportRaises = some e` means
the gateway call raises an exception whose `str` is `e`; `none` means it
succeeds.  (The body of the delivered message is irrelevant to the claims; only
the target chat of each `transport.send_message` call is recorded.) -/
def send_message_if_due (assistant : Bool) (db : Db) (now : Int) (msgId : Nat)
    (transportRaises : Option String) : DispatchResult :=
  match get_by_id db msgId with
  | none => ⟨db, [], none⟩
  | some msg =>
    if msg.status = .cancelled ∨ msg.status = .sent ∨ msg.status = .failed then
      ⟨db, [], none⟩
    else if now < msg.send_at.instant then
      ⟨db, [], none⟩
    else
      match lock_for_sending db msgId now with
      | (db1, false) => ⟨db1, [], none⟩
      | (db1, true) =>
        if assistant && pyFalsyOptStr msg.from_chat_id then
          -- the `raise ValueError` inside the `try` block: caught by the
          -- `except`, recorded via `mark_failed`, and re-raised
          let e := "from_chat_id is required in assistant mode"
          ⟨mark_failed db1 msgId e now, [], some e⟩
        else
          let target := if assistant then pyStrOfOpt msg.from_chat_id else msg.chat_id
          match transportRaises with
          | none => ⟨mark_sent db1 msgId now, [target], none⟩
          | some e => ⟨mark_failed db1 msgId e now, [target], some e⟩

/-! ### TTL-keyed in-memory stores
(`shared/auth.py` `InMemoryPendingAuthStore`, `timed_messages/core/flow_store.py`
`InMemoryFlowStore`).  A Python dict is an association list; assignment replaces
in place, `pop` removes. -/

/-- `d.get(k)`. -/
def storeLookup {κ α : Type} [BEq κ] (l : List (κ × α)) (k : κ) : Option α :=
  (l.find? (fun p => p.1 == k)).map Prod.snd

/-- `d[k] = v`. -/
def storeSet {κ α : Type} [BEq κ] (l : List (κ × α)) (k : κ) (v : α) : List (κ × α) :=
  if l.any (fun p => p.1 == k) then
    l.map (fun p => if p.1 == k then (k, v) else p)
  else l ++ [(k, v)]

/-- `d.pop(k, None)`. -/
def storeErase {κ α : Type} [BEq κ] (l : List (κ × α)) (k : κ) : List (κ × α) :=
  l.filter (fun p => !(p.1 == k))

/-- Both TTLs are `timedelta(minutes=30)`. -/
def TTL_30_MINUTES : Int := 1800

/-- `PendingAuthEntry` (`shared/auth.py`). -/
structure PendingAuthEntry where
  code : String
  updated_at : Int
  deriving DecidableEq, Repr

/-- `InMemoryPendingAuthStore.get(key, now)`: expired entries (strictly older
than the TTL) are dropped; the result pairs the returned entry with the store
after the call. -/
def pendingAuthGet (store : List (String × PendingAuthEntry)) (key : String)
    (now : Int) : Option PendingAuthEntry × List (String × PendingAuthEntry) :=
  match storeLookup store key with
  | none => (none, store)
  | some entry =>
    if now - entry.updated_at > TTL_30_MINUTES then (none, storeErase store key)
    else (some entry, store)

/-- `InMemoryPendingAuthStore.set(key, code, now)`. -/
def pendingAuthSet (store : List (String × PendingAuthEntry)) (key : String)
    (code : String) (now : Int) : List (String × PendingAuthEntry) :=
  storeSet store key ⟨code, now⟩

/-- Flow state (`timed_messages/core/flow_store.py`, built in `_start_flow` and
mutated by `_handle_flow_step`).  The source keeps a dict; `updated_at` is
always set (every writer stores one), `to_chat_id` and `send_at` appear once the
corresponding step has run. -/
structure FlowState where
  step : String
  request_id : String
  sender_id : String
  updated_at : Int
  to_chat_id : Option String := none
  send_at : Option DTime := none
  deriving DecidableEq, Repr

/-- The flow map `(chat_id, sender_id) → FlowState`. -/
abbrev FlowMap := List ((String × String) × FlowState)

/-- `InMemoryFlowStore.get(key, now)`: entries strictly older than the TTL are
dropped; the result pairs the returned flow with the store after the call. -/
def flowStoreGet (flows : FlowMap) (key : String × String) (now : Int) :
    Option FlowState × FlowMap :=
  match storeLookup flows key with
  | none => (none, flows)
  | some flow =>
    if now - flow.updated_at > TTL_30_MINUTES then (none, storeErase flows key)
    else (some flow, flows)

/-! ### Natural-time parsing
(`timed_messages/core/whatsapp_time.py` `parse_datetime`; the method
`WhatsAppEventService._parse_datetime` is literally the same code).

`strptime` helpers follow CPython `_strptime`: `%H` matches `2[0-3]|[0-1]\d|\d`,
`%M` matches `[0-5]\d|\d`, `%Y` exactly four digits, `%m` a 1-2 digit value in
1..12, `%d` a 1-2 digit value that the `datetime` constructor then bounds by the
month length, and a literal space in the format matches a whitespace run. -/

/-- Digit-string to number (callers guarantee all characters are digits). -/
def natOfDigits (s : String) : Nat :=
  s.data.foldl (fun n c => n * 10 + (c.toNat - 48)) 0

/-- Non-empty and all digits. -/
def isDigits (s : String) : Bool :=
  !s.data.isEmpty && s.data.all Char.isDigit

/-- `re.fullmatch(r"\d{1,2}:\d{2}", value)`. -/
def hmShape (s : String) : Bool :=
  match s.toList with
  | [a, c, b1, b2] => a.isDigit && c == ':' && b1.isDigit && b2.isDigit
  | [a1, a2, c, b1, b2] => a1.isDigit && a2.isDigit && c == ':' && b1.isDigit && b2.isDigit
  | _ => false

/-- `datetime.strptime(s, "%H:%M")`, reduced to its accepted language: exactly
one colon, 1-2 digits each side, hour ≤ 23 and minute ≤ 59. -/
def strptimeHM (s : String) : Option (Nat × Nat) :=
  match splitOnChar ':' s.data [] with
  | [h, m] =>
    if isDigits h && h.length ≤ 2 && isDigits m && m.length ≤ 2 then
      let hv := natOfDigits h
      let mv := natOfDigits m
      if hv ≤ 23 && mv ≤ 59 then some (hv, mv) else none
    else none
  | _ => none

/-- Gregorian leap year. -/
def isLeap (y : Nat) : Bool :=
  (y % 4 == 0 && y % 100 != 0) || y % 400 == 0

/-- Length of a month. -/
def daysInMonth (y m : Nat) : Nat :=
  if m == 2 then (if isLeap y then 29 else 28)
  else if m == 4 || m == 6 || m == 9 || m == 11 then 30
  else 31

/-- Days since 1970-01-01 of a civil date with year ≥ 1 (Hinnant's
`days_from_civil`). -/
def daysFromCivil (y m d : Nat) : Int :=
  let y' := if m ≤ 2 then y - 1 else y
  let era := y' / 400
  let yoe := y' - era * 400
  let mp := (m + 9) % 12
  let doy := (153 * mp + 2) / 5 + d - 1
  let doe := yoe * 365 + yoe / 4 - yoe / 100 + doy
  (era * 146097 + doe : Int) - 719468

/-- `datetime.strptime(s, "%Y-%m-%d %H:%M")` on an already-stripped string,
returning the parsed wall time as seconds since the epoch of that wall clock. -/
def strptimeYMDHM (s : String) : Option Int :=
  match pySplit s with
  | [dpart, tpart] =>
    match splitOnChar '-' dpart.data [] with
    | [ys, ms, ds] =>
      if isDigits ys && ys.length == 4 && isDigits ms && ms.length ≤ 2 &&
          isDigits ds && ds.length ≤ 2 then
        let y := natOfDigits ys
        let mo := natOfDigits ms
        let d := natOfDigits ds
        if 1 ≤ y && 1 ≤ mo && mo ≤ 12 && 1 ≤ d && d ≤ daysInMonth y mo then
          match strptimeHM tpart with
          | some (h, mi) => some (daysFromCivil y mo d * 86400 + ((h : Int) * 3600 + mi * 60))
          | none => none
        else none
      else none
    | _ => none
  | _ => none

/-- `parse_datetime(value, tz_name, now_utc)`.  The configured timezone is the
fixed offset `tz` (in seconds); `tz = none` models an unset/unloadable
`DEFAULT_TIMEZONE`, which `load_timezone` turns into a `ValueError`.  An `.ok`
result is the timezone-aware datetime produced (its instant). -/
def parse_datetime (value0 : String) (tz : Option Int) (nowUtc : Int) :
    Except String DTime :=
  match tz with
  | none => .error "timezone required; add \x27tz:\x27 or set DEFAULT_TIMEZONE"
  | some off =>
    let value := pyStrip value0
    let lowered := pyLower value
    let lnow := nowUtc + off
    if hmShape value then
      match strptimeHM value with
      | none => .error "invalid time (use HH:MM)"
      | some (h, m) =>
        let wall := (Int.fdiv lnow 86400) * 86400 + ((h : Int) * 3600 + (m : Int) * 60)
        let wall := if wall ≤ lnow then wall + 86400 else wall
        .ok ⟨wall - off, true⟩
    else if startsWithStr lowered "today" || startsWithStr lowered "tomorrow" then
      match pySplit lowered with
      | p0 :: p1 :: _ =>
        match strptimeHM p1 with
        | none => .error "invalid time (use HH:MM)"
        | some (h, m) =>
          let base := Int.fdiv lnow 86400 + (if p0 = "tomorrow" then 1 else 0)
          .ok ⟨base * 86400 + ((h : Int) * 3600 + (m : Int) * 60) - off, true⟩
      | _ => .error "time required (use \x27today HH:MM\x27 or \x27tomorrow HH:MM\x27)"
    else
      match strptimeYMDHM value with
      | none => .error "invalid \x27at\x27 format (use YYYY-MM-DD HH:MM)"
      | some wall => .ok ⟨wall - off, true⟩

/-! ### Authorization subsystem
(`shared/auth_service.py` `AuthMicroservice`, wired by `auth_service/app.py`
with `shared/whatsapp_formatting.py` and the helpers below). -/

/-- `text.split(None, 1)`: first whitespace-delimited token, then the remainder
with the separating run consumed (at most two elements). -/
def pySplitOnce (s : String) : List String :=
  let cs := s.toList.dropWhile Char.isWhitespace
  let tok := cs.takeWhile (fun c => !c.isWhitespace)
  let rest := (cs.drop tok.length).dropWhile Char.isWhitespace
  if tok.isEmpty then []
  else if rest.isEmpty then [String.mk tok]
  else [String.mk tok, String.mk rest]

/-- Left pad with zeros to six characters. -/
def zfill6 (s : String) : String :=
  String.mk (List.replicate (6 - s.length) '0' ++ s.data)

/-- `SixDigitAuthCodeGenerator.generate` (`shared/auth.py`):
`f"{secrets.randbelow(1_000_000):06d}"`, with the random draw `n` passed in. -/
def sixDigitCode (n : Nat) : String := zfill6 (Nat.repr n)

/-- The inbound `contact_phone` field: `None`, a string, or a list of strings. -/
inductive PhoneField where
  | absent
  | one (s : String)
  | many (l : List String)
  deriving DecidableEq, Repr

/-- The parts of the opaque `raw` payload that `_extract_requester_identity`
reads from `raw["contacts"][0]`: `profile.name`, `name.formatted_name`,
`wa_id` (each possibly missing). -/
structure RawContact where
  profile_name : Option String := none
  formatted_name : Option String := none
  wa_id : Option String := none
  deriving DecidableEq, Repr

/-- Python `a or b` on optional strings: keep `a` when truthy. -/
def pyOrOpt (a b : Option String) : Option String :=
  if pyFalsyOptStr a then b else a

/-- `AuthEventService._extract_requester_identity` (`auth_service/app.py`):
returns `(display_name, phone_display)`.  `raw` is `raw.get("contacts")`
(absent, or a list of contacts). -/
def extract_requester_identity (sender_id : String) (contact_name : Option String)
    (contact_phone : PhoneField) (raw : Option (List RawContact)) :
    String × String :=
  let primary : Option RawContact :=
    match raw with
    | some (c :: _) => some c
    | _ => none
  let profile_name : Option String :=
    match primary with
    | none => none
    | some c => pyOrOpt c.profile_name c.formatted_name
  let display₀ := pyStrip (pyStrOfOpt (pyOrOpt (pyOrOpt contact_name profile_name) (some "")))
  let display := if display₀ = "" then "-" else display₀
  let phone₀ :=
    match contact_phone with
    | .many l => strJoin ", " ((l.map pyStrip).filter (fun v => v ≠ ""))
    | .one s => pyStrip s
    | .absent => ""
  let phone₁ :=
    if phone₀ = "" then
      match primary with
      | some c => pyStrip (pyStrOfOpt (pyOrOpt c.wa_id (some "")))
      | none => ""
    else phone₀
  let phone :=
    if phone₁ = "" then
      let normalized := normalize_sender_id sender_id
      if normalized = "" then "-" else normalized
    else phone₁
  (display, phone)

/-- `format_admin_auth_request` (`shared/whatsapp_formatting.py`). -/
def format_admin_auth_request (code sender chat normalized name phone : String) :
    String :=
  "🔐 New assistant auth request\n" ++
  "Code: " ++ code ++ "\n" ++
  "Sender: " ++ sender ++ "\n" ++
  "Chat: " ++ chat ++ "\n" ++
  "Normalized: " ++ normalized ++ "\n" ++
  "Name: " ++ name ++ "\n" ++
  "Phone: " ++ phone

/-- `AuthMicroservice._build_welcome_message`; `instructions` is the list of
stripped, non-empty configured instruction values. -/
def build_welcome_message (instructions : List String) : String :=
  if instructions.isEmpty then "🎉 Welcome to the personal assistant bot."
  else
    "🎉 Welcome to the personal assistant bot.\n\n" ++
    "Here are the commands you can run:\n" ++
    strJoin "\n" (instructions.map (fun line => "- " ++ line))

/-- Everything `handle_assistant_auth` produces: the verdict `(accepted, reason)`,
the pending-auth store after the call, the messages dispatched through
`_send_reply` in order (chat id, text), and the `add_approved_number` calls. -/
structure AuthResult where
  accepted : Bool
  reason : Option String
  pending : List (String × PendingAuthEntry)
  sent : List (String × String)
  approvals : List String
  deriving DecidableEq, Repr

/-- `AuthMicroservice.handle_assistant_auth` with the `auth_service/app.py`
wiring: `adminId` is `admin_sender_id()` (`""` when unconfigured), `approved`
is `is_sender_approved`, `genN` the `secrets.randbelow(1_000_000)` draw, and
`instructions` the configured instruction values. -/
def handle_assistant_auth (adminId : String) (approved : String → Bool)
    (instructions : List String) (pending₀ : List (String × PendingAuthEntry))
    (now : Int) (genN : Nat) (chat_id sender_id _message_id text : String)
    (is_group : Bool) (contact_name : Option String) (contact_phone : PhoneField)
    (raw : Option (List RawContact)) : AuthResult :=
  if is_group then
    ⟨false, some "auth_in_group", pending₀,
     [(chat_id, "❌ Please DM me to authenticate.")], []⟩
  else
    let normalized := normalize_sender_id sender_id
    if approved sender_id then
      ⟨true, none, pending₀, [(chat_id, "✅ Already approved.")], []⟩
    else
      let t := pyStrip text
      let parts := pySplitOnce t
      if startsWithStr (pyLower t) "!auth" && parts.length == 1 then
        let code := sixDigitCode genN
        let pending₁ := pendingAuthSet pending₀ normalized code now
        -- `_notify_admin_auth_request`
        let notif : List (String × String) :=
          if adminId = "" then []
          else
            let normalizedAdmin := normalize_sender_id adminId
            if normalized ≠ "" && normalized = normalizedAdmin then []
            else
              let (nm, ph) :=
                extract_requester_identity sender_id contact_name contact_phone raw
              [(adminId, format_admin_auth_request code sender_id chat_id normalized nm ph)]
        ⟨true, none, pending₁,
         notif ++
           [(chat_id,
             "✅ Auth code generated. Ask the admin for it, then reply with the 6-digit code.")],
         []⟩
      else
        let (entry, pending₁) := pendingAuthGet pending₀ normalized now
        match entry with
        | none =>
          ⟨false, some "auth_not_requested", pending₁,
           [(chat_id, "❌ No pending auth request. Send !auth to generate a new code.")], []⟩
        | some pe =>
          let code :=
            if startsWithStr (pyLower t) "!auth" && 2 ≤ parts.length then
              pyStrip (parts.getD 1 "")
            else t
          if code ≠ pe.code then
            ⟨false, some "invalid_auth_code", pending₁,
             [(chat_id, "❌ Invalid auth code. Send !auth to generate a new code.")], []⟩
          else
            ⟨true, none, storeErase pending₁ normalized,
             [(chat_id, "✅ Approved: " ++ normalized ++ "."),
              (chat_id, build_welcome_message instructions)],
             [normalized]⟩

/-! ### Conversational flow handler
(`timed_messages/core/whatsapp_event_service.py`, `WhatsAppEventService`). -/

/-- `_normalize_contact_phone`: returns `(normalized_phone, issue)`. -/
def normalize_contact_phone (contact_phone : PhoneField) :
    Option String × Option String :=
  match contact_phone with
  | .many l =>
    let normalized := l.foldl
      (fun acc v =>
        let digits := digitsOf v
        if 8 ≤ digits.length && !acc.contains digits then acc ++ [digits] else acc)
      []
    if 1 < normalized.length then (none, some "multiple_numbers")
    else
      match normalized with
      | [d] => (some d, none)
      | _ => (none, none)
  | .absent => (none, none)
  | .one s =>
    if s = "" then (none, none)
    else
      let digits := digitsOf s
      if 8 ≤ digits.length then (some digits, none) else (none, none)

/-- `_normalize_recipient(value, contact_name, contact_phone)`. -/
def normalize_recipient (value : String) (_contact_name : Option String)
    (contact_phone : Option String) : Option String :=
  let v := pyStrip value
  if v ≠ "" && v.data.any (fun c => c = '@') then some v
  else if v ≠ "" && 8 ≤ (digitsOf v).length then some (digitsOf v ++ "@s.whatsapp.net")
  else
    match contact_phone with
    | some cp =>
      if cp ≠ "" && 8 ≤ (digitsOf cp).length then some (digitsOf cp ++ "@s.whatsapp.net")
      else none
    | none => none

/-- `_format_when_prompt` (`tzName` is `DEFAULT_TIMEZONE` or `"UTC"`). -/
def when_prompt (tzName : String) : String :=
  "*When?*\nUse YYYY-MM-DD HH:MM\n" ++
  "Or use HH:MM / \x27today HH:MM\x27 / \x27tomorrow HH:MM\x27.\n" ++
  "For example: today 18:30\n" ++
  "(Current time zone: " ++ tzName ++ ")"

/-- Civil date of a day count since 1970-01-01 (Hinnant's `civil_from_days`). -/
def civilFromDays (z₀ : Int) : Int × Nat × Nat :=
  let z := z₀ + 719468
  let era := Int.fdiv z 146097
  let doe := (z - era * 146097).toNat
  let yoe := (doe - doe / 1460 + doe / 36524 - doe / 146096) / 365
  let doy := doe - (365 * yoe + yoe / 4 - yoe / 100)
  let mp := (5 * doy + 2) / 153
  let d := doy - (153 * mp + 2) / 5 + 1
  let m := if mp < 10 then mp + 3 else mp - 9
  ((yoe : Int) + era * 400 + (if m ≤ 2 then 1 else 0), m, d)

/-- Zero-pad to two digits. -/
def pad2 (n : Nat) : String :=
  if n < 10 then "0" ++ toString n else toString n

/-- `_format_datetime(value)`: render as `%Y-%m-%d %H:%M` after `astimezone` to
the configured timezone (assumed configured whenever a flow got far enough to
need rendering; an unset timezone renders the instant's UTC wall clock). -/
def format_datetime (v : DTime) (tz : Option Int) : String :=
  let wall := v.instant + tz.getD 0
  let day := Int.fdiv wall 86400
  let secs := (wall - day * 86400).toNat
  let c := civilFromDays day
  toString c.1 ++ "-" ++ pad2 c.2.1 ++ "-" ++ pad2 c.2.2 ++ " " ++
    pad2 (secs / 3600) ++ ":" ++ pad2 (secs % 3600 / 60)

/-- `_display_recipient`. -/
def display_recipient (value : String) : String :=
  if value.data.any (fun c => c = '@') then
    String.mk (value.data.takeWhile (fun c => c ≠ '@'))
  else value

/-- The first 12 characters of the dashless hex form of the record id
(`str(scheduled.id).replace("-", "")[:12]`; ids here are the abstract `Nat`
standing for the uuid, rendered in hex and padded to the uuid's 32 digits). -/
def shortHexId (n : Nat) : String :=
  String.mk ((List.replicate (32 - (Nat.toDigits 16 n).length) '0'
    ++ Nat.toDigits 16 n).take 12)

/-- `_format_schedule_reply`. -/
def format_schedule_reply (scheduledId : Nat) (toValue : String) (sendAt : DTime)
    (tz : Option Int) : String :=
  "✅ Scheduled\n" ++
  "ID: " ++ shortHexId scheduledId ++ "\n" ++
  "To: " ++ display_recipient toValue ++ "\n" ++
  "At: " ++ format_datetime sendAt tz

/-- Everything `_handle_flow_step` produces: the verdict, the flow map and table
after the call, and the replies sent (chat id, text) in order. -/
structure FlowStepResult where
  accepted : Bool
  reason : Option String
  flows : FlowMap
  db : Db
  replies : List (String × String)
  deriving DecidableEq, Repr

/-- `WhatsAppEventService._handle_flow_step`.  Ambient configuration:
`assistant` = assistant mode, `tz` = the configured timezone offset
(`DEFAULT_TIMEZONE`; `none` when unset), `tzName` its display name,
`maxWindow`/`hoursShown` the assistant schedule window, `now` the injected
clock, `freshId` the `uuid4` draw for a created record, and `confirmationId`
the gateway message id returned by `_send_reply` for the confirmation reply
(`none` if sending failed).  The flow dict is mutated in place, so every path
first writes `updated_at := timestamp` back to the store under
`(chat_id, flow.sender_id)`.  A `none` result models the unreachable `KeyError`
of `flow["send_at"]` in step `"text"`. -/
def handle_flow_step (assistant : Bool) (tz : Option Int) (tzName : String)
    (maxWindow : Int) (hoursShown : Nat) (now : Int) (freshId : Nat)
    (confirmationId : Option String) (flows₀ : FlowMap) (db : Db)
    (flow : FlowState) (chat_id _message_id text : String)
    (contact_name : Option String) (contact_phone : PhoneField)
    (timestamp : Int) : Option FlowStepResult :=
  let flow₁ := { flow with updated_at := timestamp }
  let key := (chat_id, flow₁.sender_id)
  let flows₁ := storeSet flows₀ key flow₁
  if pyLower (pyStrip text) = "cancel" then
    some ⟨true, none, storeErase flows₁ key, db, [(chat_id, "✅ Canceled scheduling.")]⟩
  else if flow₁.step = "to" then
    let norm := normalize_contact_phone contact_phone
    if norm.2 = some "multiple_numbers" then
      some ⟨true, some "multiple_recipient_numbers", flows₁, db,
        [(chat_id,
          "❌ Can\x27t send to multiple numbers. Please share one contact with one phone number.")]⟩
    else
      match normalize_recipient text contact_name norm.1 with
      | none =>
        some ⟨true, none, flows₁, db,
          [(chat_id,
            "❌ Please reply with a phone number (digits, country code) or share a WhatsApp contact.")]⟩
      | some recipient =>
        let flow₂ := { flow₁ with to_chat_id := some recipient, step := "when" }
        some ⟨true, none, storeSet flows₁ key flow₂, db,
          [(chat_id, when_prompt tzName)]⟩
  else if flow₁.step = "when" then
    match parse_datetime text tz now with
    | .error _ =>
      some ⟨true, none, flows₁, db,
        [(chat_id, "❌ Invalid time. " ++ when_prompt tzName)]⟩
    | .ok send_at =>
      if send_at.instant ≤ now then
        some ⟨true, none, flows₁, db,
          [(chat_id, "❌ Time must be in the future. " ++ when_prompt tzName)]⟩
      else
        match validate_assistant_schedule_window assistant maxWindow hoursShown send_at now with
        | .error e =>
          some ⟨true, some e, flows₁, db, [(chat_id, "❌ " ++ e)]⟩
        | .ok _ =>
          let flow₂ := { flow₁ with send_at := some send_at, step := "text" }
          some ⟨true, none, storeSet flows₁ key flow₂, db,
            [(chat_id, "*What should I say?*")]⟩
  else if flow₁.step = "text" then
    if pyStrip text = "" then
      some ⟨true, none, flows₁, db,
        [(chat_id, "❌ Message text can\x27t be empty. *What should I say?*")]⟩
    else
      match flow₁.send_at with
      | none => none
      | some sa =>
        match schedule_message assistant db now freshId (pyStrOfOpt flow₁.to_chat_id)
            (some flow₁.sender_id) (pyStrip text) sa flow₁.request_id "whatsapp"
            (some ("whatsapp:" ++ flow₁.request_id)) with
        | .error e =>
          if e = "send_at must be in the future" then
            let flow₂ := { flow₁ with step := "when" }
            some ⟨true, some e, storeSet flows₁ key flow₂, db,
              [(chat_id, "❌ Time must be in the future. " ++ when_prompt tzName)]⟩
          else
            some ⟨true, some e, flows₁, db, [(chat_id, "❌ " ++ e)]⟩
        | .ok (scheduled, db₁) =>
          let reply := format_schedule_reply scheduled.id (pyStrOfOpt flow₁.to_chat_id) sa tz
          let db₂ :=
            match confirmationId with
            | some cid =>
              if cid ≠ "" then set_confirmation_message_id db₁ scheduled.id cid now else db₁
            | none => db₁
          some ⟨true, none, storeErase flows₁ key, db₂, [(chat_id, reply)]⟩
  else
    some ⟨false, some "not_actionable", flows₁, db, []⟩

/-! ### Supporting lemmas -/

/-- `find?` by id commutes with a row map that preserves ids. -/
theorem find?_id_map (f : ScheduledMessage → ScheduledMessage)
    (hf : ∀ x, (f x).id = x.id) (db : Db) (i : Nat) :
    (db.map f).find? (fun r => r.id == i) = (db.find? (fun r => r.id == i)).map f := by
  induction db with
  | nil => rfl
  | cons a t ih =>
    simp only [List.map_cons, List.find?_cons, hf a]
    cases h : (a.id == i) with
    | true => rfl
    | false => simpa using ih

/-- A map whose row function only touches rows matched by a predicate nothing
satisfies is the identity. -/
theorem map_unmatched_id (db : Db) (p : ScheduledMessage → Bool)
    (f : ScheduledMessage → ScheduledMessage) (h : db.countP p = 0) :
    db.map (fun r => if p r then f r else r) = db := by
  have hall := List.countP_eq_zero.mp h
  have : ∀ a ∈ db, (fun r => if p r then f r else r) a = id a := by
    intro a ha
    simp [hall a ha]
  rw [List.map_congr_left this, List.map_id]

/-- With unique ids, a member is what `get_by_id` returns for its id. -/
theorem get_by_id_of_mem (db : Db) (r : ScheduledMessage) (hn : idsNodup db)
    (hr : r ∈ db) : get_by_id db r.id = some r := by
  unfold get_by_id
  induction db with
  | nil => cases hr
  | cons a t ih =>
    rw [idsNodup, List.map_cons, List.nodup_cons] at hn
    rcases List.mem_cons.mp hr with h | h
    · subst h
      simp [List.find?_cons]
    · have hne : (a.id == r.id) = false := by
        rw [beq_eq_false_iff_ne]
        intro hEq
        exact hn.1 (hEq ▸ List.mem_map_of_mem ScheduledMessage.id h)
      simp [List.find?_cons, hne]
      exact ih hn.2 h

/-- With unique ids, two members sharing an id are equal. -/
theorem eq_of_mem_of_id_eq (db : Db) (x y : ScheduledMessage) (hn : idsNodup db)
    (hx : x ∈ db) (hy : y ∈ db) (h : x.id = y.id) : x = y :=
  List.inj_on_of_nodup_map hn hx hy h

/-- With unique ids, exactly one row matches a predicate that pins the id of a
member satisfying it. -/
theorem countP_eq_one_of_unique (db : Db) (p : ScheduledMessage → Bool)
    (r : ScheduledMessage) (hn : idsNodup db) (hr : r ∈ db) (hp : p r = true)
    (hid : ∀ x, p x = true → x.id = r.id) : db.countP p = 1 := by
  induction db with
  | nil => cases hr
  | cons a t ih =>
    rw [idsNodup, List.map_cons, List.nodup_cons] at hn
    rw [List.countP_cons]
    rcases List.mem_cons.mp hr with h | h
    · subst h
      have hz : t.countP p = 0 := by
        rw [List.countP_eq_zero]
        intro x hx hpx
        exact hn.1 (hid x hpx ▸ List.mem_map_of_mem ScheduledMessage.id hx)
      simp [hz, hp]
    · have hpa : p a = false := by
        cases hpa : p a with
        | false => rfl
        | true =>
          exact absurd (hid a hpa ▸ List.mem_map_of_mem ScheduledMessage.id h) hn.1
      simp [hpa, ih hn.2 h]

/-- Setting a key makes it the stored value. -/
theorem storeLookup_storeSet {κ α : Type} [BEq κ] [LawfulBEq κ]
    (l : List (κ × α)) (k : κ) (v : α) : storeLookup (storeSet l k v) k = some v := by
  unfold storeSet
  by_cases h : l.any (fun p => p.1 == k)
  · simp only [h, if_true]
    induction l with
    | nil => simp at h
    | cons a t ih =>
      by_cases ha : (a.1 == k)
      · simp [storeLookup, List.find?_cons, ha]
      · have ht : t.any (fun p => p.1 == k) := by
          rcases List.any_eq_true.mp h with ⟨p, hp, hpk⟩
          rcases List.mem_cons.mp hp with rfl | hp
          · exact absurd hpk (by simpa using ha)
          · exact List.any_eq_true.mpr ⟨p, hp, hpk⟩
        have := ih ht
        simpa [storeLookup, List.find?_cons, ha] using this
  · simp only [h, if_false]
    have hnone : l.find? (fun p => p.1 == k) = none := by
      rw [List.find?_eq_none]
      intro x hx hxk
      exact h (List.any_eq_true.mpr ⟨x, hx, hxk⟩)
    simp [storeLookup, List.find?_append, hnone]

/-! ### C9: TTL expiry of pending-auth and flow entries -/

/-- C9 counterexample: the claim says a lookup at **at least** 30 minutes after
`updated_at` returns nothing and evicts the entry, but the source expires only
strictly beyond the TTL (`now - entry.updated_at > self._ttl`): at exactly 30
minutes (1800 s) the entry is still returned and kept. -/
theorem claim9_counterexample :
    pendingAuthGet [("15551234567", ⟨"123456", 0⟩)] "15551234567" 1800
      = (some ⟨"123456", 0⟩, [("15551234567", ⟨"123456", 0⟩)])
    ∧ (1800 : Int) - 0 ≥ 30 * 60 := by
  exact ⟨rfl, by decide⟩

/-- C9 (amended): a lookup strictly more than 30 minutes after the entry's
`updated_at` returns nothing and removes the entry; a lookup at most 30 minutes
after it returns the stored entry unchanged.  Holds for both the pending-auth
store and the flow store. -/
theorem claim9_ttl_amended (store : List (String × PendingAuthEntry))
    (flows : FlowMap) (k : String) (fk : String × String) (now : Int)
    (e : PendingAuthEntry) (f : FlowState)
    (he : storeLookup store k = some e) (hf : storeLookup flows fk = some f) :
    (now - e.updated_at > TTL_30_MINUTES →
      pendingAuthGet store k now = (none, storeErase store k)) ∧
    (now - e.updated_at ≤ TTL_30_MINUTES →
      pendingAuthGet store k now = (some e, store)) ∧
    (now - f.updated_at > TTL_30_MINUTES →
      flowStoreGet flows fk now = (none, storeErase flows fk)) ∧
    (now - f.updated_at ≤ TTL_30_MINUTES →
      flowStoreGet flows fk now = (some f, flows)) := by
  refine ⟨fun h => ?_, fun h => ?_, fun h => ?_, fun h => ?_⟩ <;>
    simp only [pendingAuthGet, flowStoreGet, he, hf]
  · rw [if_pos h]
  · rw [if_neg (by omega)]
  · rw [if_pos h]
  · rw [if_neg (by omega)]

/-- C9 witness: the amended theorem applied to one-entry stores, on both sides
of the 30-minute boundary. -/
theorem claim9_witness :
    pendingAuthGet [("a", ⟨"1", 0⟩)] "a" 1801 = (none, []) ∧
    pendingAuthGet [("a", ⟨"1", 0⟩)] "a" 1800 = (some ⟨"1", 0⟩, [("a", ⟨"1", 0⟩)]) ∧
    flowStoreGet [(("c", "s"), ⟨"to", "m", "s", 0, none, none⟩)] ("c", "s") 3000
      = (none, []) := by
  have h := claim9_ttl_amended [("a", ⟨"1", 0⟩)]
    [(("c", "s"), ⟨"to", "m", "s", 0, none, none⟩)] "a" ("c", "s") 1801
    ⟨"1", 0⟩ ⟨"to", "m", "s", 0, none, none⟩ rfl rfl
  have h' := claim9_ttl_amended [("a", ⟨"1", 0⟩)]
    [(("c", "s"), ⟨"to", "m", "s", 0, none, none⟩)] "a" ("c", "s") 1800
    ⟨"1", 0⟩ ⟨"to", "m", "s", 0, none, none⟩ rfl rfl
  have h'' := claim9_ttl_amended [("a", ⟨"1", 0⟩)]
    [(("c", "s"), ⟨"to", "m", "s", 0, none, none⟩)] "a" ("c", "s") 3000
    ⟨"1", 0⟩ ⟨"to", "m", "s", 0, none, none⟩ rfl rfl
  exact ⟨h.1 (by decide), h'.2.1 (by decide), h''.2.2.1 (by decide)⟩

/-! ### C3: terminal statuses -/

/-- A convenient base record for concrete instances. -/
def sampleMsg : ScheduledMessage :=
  { id := 1, chat_id := "15550001111@s.whatsapp.net", text := "hello",
    send_at := ⟨100, true⟩, status := .scheduled, idempotency_key := "wamid-1",
    source := "whatsapp", created_at := 0, updated_at := 0 }

/-- C3 counterexample: the repository operation `mark_sent` is an unconditional
`UPDATE ... WHERE id = %s`, so invoked directly on a `CANCELLED` record it moves
it to `SENT` — the claim that no repository operation among
lock_for_sending/mark_sent/mark_failed/cancel ever changes a terminal record's
status fails (likewise `mark_failed` moves a `SENT` record to `FAILED`). -/
theorem claim3_counterexample :
    ({ sampleMsg with status := .cancelled } : ScheduledMessage).status
        = MessageStatus.cancelled
    ∧ (mark_sent [{ sampleMsg with status := .cancelled }] 1 5).map
        ScheduledMessage.status = [MessageStatus.sent]
    ∧ (mark_failed [{ sampleMsg with status := .sent }] 1 "boom" 5).map
        ScheduledMessage.status = [MessageStatus.failed] := by
  exact ⟨rfl, rfl, rfl⟩

/-- C3 (amended): for a record in a terminal status (`SENT` or `CANCELLED`) the
guarded repository operations `lock_for_sending` and `cancel` never change it,
and neither does any service-level call (`send_message_if_due`,
`cancel_message`) — the service reaches `mark_sent`/`mark_failed` only behind a
successful lock, which excludes terminal rows.  The raw `mark_sent` /
`mark_failed` updates themselves are unconditional (see the counterexample). -/
theorem claim3_terminal_amended (db : Db) (msgId : Nat) (now now₂ sentAt : Int)
    (assistant : Bool) (transportRaises : Option String) (r : ScheduledMessage)
    (hget : get_by_id db msgId = some r)
    (hterm : r.status = .sent ∨ r.status = .cancelled) :
    get_by_id (lock_for_sending db msgId now).1 msgId = some r
    ∧ (∃ r₂, get_by_id (repoCancel db msgId now) msgId = some r₂
        ∧ r₂.status = r.status)
    ∧ (send_message_if_due assistant db now₂ msgId transportRaises).db = db
    ∧ (cancel_message db msgId sentAt).1 = db := by
  have hget' : db.find? (fun x => x.id == msgId) = some r := hget
  have hpr : (r.id == msgId) = true := by
    have := List.find?_some hget'
    simpa using this
  have hlockCond : lockCond (now - LOCK_TIMEOUT_SECONDS) r = false := by
    rcases hterm with h | h <;> simp [lockCond, h]
  refine ⟨?_, ?_, ?_, ?_⟩
  · unfold lock_for_sending
    simp only
    rw [show (fun x : ScheduledMessage =>
          if x.id == msgId && lockCond (now - LOCK_TIMEOUT_SECONDS) x
          then lockRow now x else x)
        = (fun x => if (x.id == msgId && lockCond (now - LOCK_TIMEOUT_SECONDS) x) = true
            then lockRow now x else x) from rfl]
    rw [get_by_id, find?_id_map _ (fun x => by
      by_cases h : (x.id == msgId && lockCond (now - LOCK_TIMEOUT_SECONDS) x) = true <;>
        simp [h, lockRow])]
    rw [← get_by_id, hget]
    simp [hpr, hlockCond]
  · refine ⟨cancelRow msgId now r, ?_, ?_⟩
    · rw [repoCancel, get_by_id, find?_id_map _ (fun x => by
        unfold cancelRow
        by_cases h : (x.id == msgId && !(x.status == MessageStatus.sent)) = true <;>
          simp [h])]
      rw [← get_by_id, hget]
      rfl
    · rcases hterm with h | h
      · simp [cancelRow, h]
      · by_cases hid : r.id = msgId <;> simp [cancelRow, h, hid]
  · unfold send_message_if_due
    rw [hget]
    rcases hterm with h | h <;> simp [h]
  · unfold cancel_message
    rw [hget]
    rcases hterm with h | h <;> simp [h]

/-- C3 witness: the amended theorem applied to a one-row table holding a
cancelled record. -/
theorem claim3_witness :
    get_by_id (lock_for_sending [{ sampleMsg with status := .cancelled }] 1 50).1 1
      = some { sampleMsg with status := .cancelled }
    ∧ (send_message_if_due true [{ sampleMsg with status := .cancelled }] 200 1 none).db
      = [{ sampleMsg with status := .cancelled }] := by
  have h := claim3_terminal_amended [{ sampleMsg with status := .cancelled }] 1
    50 200 0 true none { sampleMsg with status := .cancelled } rfl (Or.inr rfl)
  exact ⟨h.1, h.2.2.1⟩

/-! ### C6: `attempt_count` -/

/-- C6 counterexample: `update_metadata` is also a repository operation
(`UPDATE_METADATA_SQL`, `ScheduledMessageRepository.update_metadata`), and it
overwrites `attempt_count` with the supplied record's value, which can
decrease it — so `attempt_count` is not monotone across *all* repository
operations, and `mark_failed` is not the only operation that changes it. -/
theorem claim6_counterexample :
    ({ sampleMsg with attempt_count := 3 } : ScheduledMessage).attempt_count = 3
    ∧ (update_metadata [{ sampleMsg with attempt_count := 3 }] 1
        { sampleMsg with attempt_count := 0 }).map ScheduledMessage.attempt_count
      = [0] := by
  exact ⟨rfl, rfl⟩

/-- C6 (amended): across the repository operations of the spec's contract,
every row's `attempt_count` is left unchanged by `lock_for_sending`,
`mark_sent`, `cancel` and `set_confirmation_message_id`, and `mark_failed`
increments it by exactly one on the addressed row and leaves every other row
unchanged (`update_metadata`, absent from the spec's contract, instead
overwrites it — see the counterexample). -/
theorem claim6_attempt_count_amended (db : Db) (msgId : Nat) (e cid : String)
    (now sentAt lockNow cfNow : Int) (i : Nat) (h : i < db.length) :
    (((lock_for_sending db msgId lockNow).1.get
        ⟨i, by simpa [lock_for_sending] using h⟩).attempt_count
      = (db.get ⟨i, h⟩).attempt_count)
    ∧ (((mark_sent db msgId sentAt).get
        ⟨i, by simpa [mark_sent] using h⟩).attempt_count
      = (db.get ⟨i, h⟩).attempt_count)
    ∧ (((repoCancel db msgId now).get
        ⟨i, by simpa [repoCancel] using h⟩).attempt_count
      = (db.get ⟨i, h⟩).attempt_count)
    ∧ (((set_confirmation_message_id db msgId cid cfNow).get
        ⟨i, by simpa [set_confirmation_message_id] using h⟩).attempt_count
      = (db.get ⟨i, h⟩).attempt_count)
    ∧ (((mark_failed db msgId e now).get
        ⟨i, by simpa [mark_failed] using h⟩).attempt_count
      = (db.get ⟨i, h⟩).attempt_count
          + (if (db.get ⟨i, h⟩).id = msgId then 1 else 0)) := by
  refine ⟨?_, ?_, ?_, ?_, ?_⟩ <;>
    simp only [lock_for_sending, mark_sent, repoCancel, set_confirmation_message_id,
      mark_failed, List.get_eq_getElem, List.getElem_map]
  · by_cases hc : ((db[i].id == msgId &&
        lockCond (lockNow - LOCK_TIMEOUT_SECONDS) db[i]) = true) <;>
      simp [hc, lockRow]
  · unfold markSentRow
    by_cases hc : (db[i].id == msgId) = true <;> simp [hc]
  · unfold cancelRow
    by_cases hc : ((db[i].id == msgId && !(db[i].status == MessageStatus.sent)) = true) <;>
      simp [hc]
  · unfold setConfirmationRow
    by_cases hc : (db[i].id == msgId) = true <;> simp [hc]
  · unfold markFailedRow
    by_cases hc : (db[i].id == msgId) = true
    · simp [hc, beq_iff_eq.mp hc]
    · have hne : ¬ db[i].id = msgId := by
        simpa using hc
      simp [hc, hne]

/-- C6 witness: the amended theorem applied to a one-row table; the addressed
row's `attempt_count` rises from 0 to 1 under `mark_failed` and is untouched by
`mark_sent`. -/
theorem claim6_witness :
    ((mark_failed [sampleMsg] 1 "boom" 9).get ⟨0, by decide⟩).attempt_count = 1
    ∧ ((mark_sent [sampleMsg] 1 9).get ⟨0, by decide⟩).attempt_count = 0 := by
  have h := claim6_attempt_count_amended [sampleMsg] 1 "boom" "cid" 9 9 9 9 0 (by decide)
  refine ⟨?_, ?_⟩
  · have := h.2.2.2.2
    simpa using this
  · have := h.2.1
    simpa using this

/-! ### C5: `cancel_message` -/

/-- C5: `cancel_message` is a no-op for a missing or already-`CANCELLED`
record, raises `"Cannot cancel a sent message"` and leaves the table unchanged
for a `SENT` record, sets the status to `CANCELLED` in every other status
(`SCHEDULED`, `LOCKED`, `FAILED` — everything `≠ SENT, ≠ CANCELLED`), and
calling it twice has the same effect on the table as calling it once. -/
theorem claim5_cancel_message (db : Db) (msgId : Nat) (now now₂ : Int) :
    (get_by_id db msgId = none → cancel_message db msgId now = (db, none))
    ∧ (∀ r, get_by_id db msgId = some r →
        (r.status = .cancelled → cancel_message db msgId now = (db, none))
        ∧ (r.status = .sent →
            cancel_message db msgId now = (db, some "Cannot cancel a sent message"))
        ∧ (r.status ≠ .sent → r.status ≠ .cancelled →
            cancel_message db msgId now = (repoCancel db msgId now, none)
            ∧ get_by_id (repoCancel db msgId now) msgId
                = some { r with status := .cancelled, updated_at := now }))
    ∧ ((cancel_message (cancel_message db msgId now).1 msgId now₂).1
        = (cancel_message db msgId now).1) := by
  have hcancelGet : ∀ r, get_by_id db msgId = some r →
      get_by_id (repoCancel db msgId now) msgId = some (cancelRow msgId now r) := by
    intro r h
    rw [repoCancel, get_by_id, find?_id_map _ (fun x => by
      unfold cancelRow
      by_cases hx : (x.id == msgId && !(x.status == MessageStatus.sent)) = true <;>
        simp [hx])]
    rw [← get_by_id, h]
    rfl
  refine ⟨fun h => by simp [cancel_message, h], fun r h => ?_, ?_⟩
  · have hpr : (r.id == msgId) = true := by
      have hh : db.find? (fun x => x.id == msgId) = some r := h
      have := List.find?_some hh
      simpa using this
    refine ⟨fun h1 => by simp [cancel_message, h, h1],
            fun h2 => by simp [cancel_message, h, h2], fun hs hc => ?_⟩
    constructor
    · simp [cancel_message, h, hs, hc]
    · rw [hcancelGet r h]
      have : cancelRow msgId now r = { r with status := .cancelled, updated_at := now } := by
        have hns : (r.status == MessageStatus.sent) = false := by
          simpa using hs
        simp [cancelRow, hpr, hns]
      rw [this]
  · cases hg : get_by_id db msgId with
    | none => simp [cancel_message, hg]
    | some r =>
      by_cases h1 : r.status = .sent
      · simp [cancel_message, hg, h1]
      · by_cases h2 : r.status = .cancelled
        · simp [cancel_message, hg, h1, h2]
        · have hpr : (r.id == msgId) = true := by
            have hh : db.find? (fun x => x.id == msgId) = some r := hg
            have := List.find?_some hh
            simpa using this
          have hget2 : get_by_id (repoCancel db msgId now) msgId
              = some (cancelRow msgId now r) := by
            rw [repoCancel, get_by_id, find?_id_map _ (fun x => by
              unfold cancelRow
              by_cases hx : (x.id == msgId && !(x.status == MessageStatus.sent)) = true <;>
                simp [hx])]
            rw [← get_by_id, hg]
            rfl
          have hrow : (cancelRow msgId now r).status = .cancelled := by
            have hns : (r.status == MessageStatus.sent) = false := by
              simpa using h1
            simp [cancelRow, hpr, hns]
          simp [cancel_message, hg, h1, h2, hget2, hrow]

/-- C5 witness: cancelling a one-row `SCHEDULED` table cancels the row, and a
second cancel leaves it as is. -/
theorem claim5_witness :
    cancel_message [sampleMsg] 1 5 = (repoCancel [sampleMsg] 1 5, none)
    ∧ get_by_id (repoCancel [sampleMsg] 1 5) 1
        = some { sampleMsg with status := .cancelled, updated_at := 5 }
    ∧ (cancel_message (cancel_message [sampleMsg] 1 5).1 1 9).1
        = (cancel_message [sampleMsg] 1 5).1 := by
  have h := claim5_cancel_message [sampleMsg] 1 5 9
  have h2 := (h.2.1 sampleMsg rfl).2.2 (by decide) (by decide)
  exact ⟨h2.1, h2.2, h.2.2⟩

/-! ### C2: stale-lease reclaim -/

/-- C2: a `LOCKED` record whose lease expired more than 300 s ago and whose
`send_at` has passed is listed by `list_upcoming` (whenever the limit does not
cut it off), `lock_for_sending` re-claims it — returning `true` and re-setting
`status = LOCKED`, `locked_at = now` — and in general `lock_for_sending`
returns `true` exactly when the addressed row is currently `SCHEDULED`, or
`LOCKED` with `locked_at` null or earlier than `now − 300 s`, and `false` in
every other state. -/
theorem claim2_stale_lease (db : Db) (now : Int) (limit : Nat)
    (r : ScheduledMessage) (t : Int) (hn : idsNodup db) (hr : r ∈ db)
    (hst : r.status = .locked) (hlk : r.locked_at = some t)
    (ht : t < now - 300) (hdue : r.send_at.instant ≤ now)
    (hlim : (db.filter (dueCond now)).length ≤ limit) :
    r ∈ list_upcoming db now limit
    ∧ (lock_for_sending db r.id now).2 = true
    ∧ get_by_id (lock_for_sending db r.id now).1 r.id
        = some { r with status := .locked, locked_at := some now, updated_at := now }
    ∧ (∀ db₂ id₂ r₂, idsNodup db₂ → get_by_id db₂ id₂ = some r₂ →
        ((lock_for_sending db₂ id₂ now).2 = true
          ↔ lockCond (now - 300) r₂ = true)) := by
  have hdc : dueCond now r = true := by
    simp [dueCond, hst, hlk, hdue, LOCK_TIMEOUT_SECONDS]
    omega
  have hcond : lockCond (now - LOCK_TIMEOUT_SECONDS) r = true := by
    simp [lockCond, hst, hlk, LOCK_TIMEOUT_SECONDS]
    omega
  refine ⟨?_, ?_, ?_, ?_⟩
  · unfold list_upcoming
    have hperm := List.mergeSort_perm (db.filter (dueCond now))
      (fun a b => a.send_at.instant ≤ b.send_at.instant)
    rw [List.take_of_length_le (hperm.length_eq ▸ hlim)]
    exact hperm.mem_iff.mpr (List.mem_filter.mpr ⟨hr, hdc⟩)
  · unfold lock_for_sending
    have h1 : db.countP
        (fun x => x.id == r.id && lockCond (now - LOCK_TIMEOUT_SECONDS) x) = 1 := by
      apply countP_eq_one_of_unique db _ r hn hr
      · simp [hcond]
      · intro x hx
        have := (Bool.and_eq_true _ _).mp hx
        simpa using this.1
    simp [h1]
  · unfold lock_for_sending
    simp only
    rw [get_by_id, find?_id_map _ (fun x => by
      by_cases hx : (x.id == r.id && lockCond (now - LOCK_TIMEOUT_SECONDS) x) = true <;>
        simp [hx, lockRow])]
    rw [← get_by_id, get_by_id_of_mem db r hn hr]
    simp [hcond, lockRow]
  · intro db₂ id₂ r₂ hn₂ hget₂
    have hget₂' : db₂.find? (fun x => x.id == id₂) = some r₂ := hget₂
    have hmem₂ : r₂ ∈ db₂ := List.mem_of_find?_eq_some hget₂'
    have hid₂ : (r₂.id == id₂) = true := by
      have := List.find?_some hget₂'
      simpa using this
    have hid₂' : r₂.id = id₂ := by simpa using hid₂
    unfold lock_for_sending
    simp only [beq_iff_eq]
    constructor
    · intro hcount
      by_contra hnc
      have hz : db₂.countP
          (fun x => x.id == id₂ && lockCond (now - LOCK_TIMEOUT_SECONDS) x) = 0 := by
        rw [List.countP_eq_zero]
        intro x hx hpx
        have hp := (Bool.and_eq_true _ _).mp hpx
        have hxid : x.id = id₂ := by simpa using hp.1
        have : x = r₂ := eq_of_mem_of_id_eq db₂ x r₂ hn₂ hx hmem₂ (hxid.trans hid₂'.symm)
        rw [this] at hp
        rw [show (300 : Int) = LOCK_TIMEOUT_SECONDS from rfl] at hnc
        exact hnc hp.2
      rw [hz] at hcount
      cases hcount
    · intro hc
      rw [show (300 : Int) = LOCK_TIMEOUT_SECONDS from rfl] at hc
      apply countP_eq_one_of_unique db₂ _ r₂ hn₂ hmem₂
      · simp [hid₂, hc]
      · intro x hx
        have := (Bool.and_eq_true _ _).mp hx
        have : x.id = id₂ := by simpa using this.1
        rw [this, hid₂']


/-- C2 witness: a stale-locked due record in a one-row table is listed and
re-locked. -/
theorem claim2_witness :
    ({ sampleMsg with status := .locked, locked_at := some 0 } : ScheduledMessage)
        ∈ list_upcoming [{ sampleMsg with status := .locked, locked_at := some 0 }] 500 10
    ∧ (lock_for_sending [{ sampleMsg with status := .locked, locked_at := some 0 }] 1 500).2
        = true := by
  have h := claim2_stale_lease
    [{ sampleMsg with status := .locked, locked_at := some 0 }] 500 10
    { sampleMsg with status := .locked, locked_at := some 0 } 0
    (by decide) (by simp) rfl rfl (by decide) (by decide) (by decide)
  exact ⟨h.1, h.2.1⟩

/-! ### C1: `schedule_message` -/

/-- On valid arguments, an idempotency hit returns the existing record and
leaves the table untouched. -/
theorem schedule_message_found (assistant : Bool) (db : Db) (now : Int)
    (freshId : Nat) (chat_id : String) (from_chat_id : Option String)
    (text : String) (send_at : DTime) (key source : String)
    (reason : Option String) (m : ScheduledMessage)
    (ha : send_at.aware = true) (hf : now < send_at.instant)
    (has : assistant = true → pyFalsyOptStr from_chat_id = false)
    (hfind : find_by_idempotency_key db key = some m) :
    schedule_message assistant db now freshId chat_id from_chat_id text send_at
      key source reason = .ok (m, db) := by
  have hnotle : ¬ send_at.instant ≤ now := not_le.mpr hf
  have hguard : (assistant && pyFalsyOptStr from_chat_id) = false := by
    cases hA : assistant with
    | false => rfl
    | true => simp [has hA]
  simp [schedule_message, ha, hnotle, hguard, hfind]

/-- The record `schedule_message` creates on an idempotency miss (the
`ScheduledMessage(...)` literal in the source). -/
def scheduledRecord (freshId : Nat) (chat_id : String)
    (from_chat_id : Option String) (text : String) (send_at : DTime)
    (key source : String) (reason : Option String) (now : Int) :
    ScheduledMessage :=
  { id := freshId, chat_id := chat_id, from_chat_id := from_chat_id,
    text := text, send_at := send_at, status := .scheduled,
    locked_at := none, sent_at := none, attempt_count := 0,
    last_error := none, idempotency_key := key, source := source,
    reason := reason, created_at := now, updated_at := now }

/-- C1: `schedule_message` raises a validation error when `send_at` is naive,
not strictly in the future, or `from_chat_id` is missing in assistant mode;
otherwise an existing record under the idempotency key is returned with the
table unchanged, and absent such a record a fresh `SCHEDULED` record with
`attempt_count 0` and the given fields is inserted and returned.  Consequently
at most one record per idempotency key ever exists, and a repeated
`schedule_message` with the same key returns the very same record (same id)
without growing the table. -/
theorem claim1_schedule_message_spec (assistant : Bool) (db : Db) (now : Int)
    (freshId : Nat) (chat_id : String) (from_chat_id : Option String)
    (text : String) (send_at : DTime) (key source : String)
    (reason : Option String) :
    (send_at.aware = false ∨ send_at.instant ≤ now
        ∨ (assistant = true ∧ pyFalsyOptStr from_chat_id = true) →
      ∃ e, schedule_message assistant db now freshId chat_id from_chat_id text
          send_at key source reason = .error e)
    ∧ (send_at.aware = true → now < send_at.instant →
        (assistant = true → pyFalsyOptStr from_chat_id = false) →
        (∀ ex, find_by_idempotency_key db key = some ex →
          schedule_message assistant db now freshId chat_id from_chat_id text
            send_at key source reason = .ok (ex, db))
        ∧ (find_by_idempotency_key db key = none →
          schedule_message assistant db now freshId chat_id from_chat_id text
            send_at key source reason = .ok
              (scheduledRecord freshId chat_id from_chat_id text send_at key
                 source reason now,
               db ++ [scheduledRecord freshId chat_id from_chat_id text send_at
                 key source reason now])
          ∧ (scheduledRecord freshId chat_id from_chat_id text send_at key
               source reason now).status = .scheduled
          ∧ (scheduledRecord freshId chat_id from_chat_id text send_at key
               source reason now).attempt_count = 0))
    ∧ (db.countP (fun r => r.idempotency_key == key) ≤ 1 →
        ∀ m db', schedule_message assistant db now freshId chat_id from_chat_id
            text send_at key source reason = .ok (m, db') →
          db'.countP (fun r => r.idempotency_key == key) ≤ 1
          ∧ find_by_idempotency_key db' key = some m
          ∧ ∀ (assistant₂ : Bool) (now₂ : Int) (freshId₂ : Nat) (chat₂ : String)
              (from₂ : Option String) (text₂ : String) (send₂ : DTime)
              (source₂ : String) (reason₂ : Option String),
              send₂.aware = true → now₂ < send₂.instant →
              (assistant₂ = true → pyFalsyOptStr from₂ = false) →
              schedule_message assistant₂ db' now₂ freshId₂ chat₂ from₂ text₂
                send₂ key source₂ reason₂ = .ok (m, db')) := by
  refine ⟨?_, ?_, ?_⟩
  · rintro (h | h | ⟨h1, h2⟩)
    · exact ⟨"send_at must be timezone-aware (UTC)", by simp [schedule_message, h]⟩
    · by_cases ha : send_at.aware = false
      · exact ⟨"send_at must be timezone-aware (UTC)", by simp [schedule_message, ha]⟩
      · exact ⟨"send_at must be in the future", by simp [schedule_message, ha, h]⟩
    · by_cases ha : send_at.aware = false
      · exact ⟨"send_at must be timezone-aware (UTC)", by simp [schedule_message, ha]⟩
      · by_cases hle : send_at.instant ≤ now
        · exact ⟨"send_at must be in the future", by simp [schedule_message, ha, hle]⟩
        · exact ⟨"from_chat_id required in assistant mode",
            by simp [schedule_message, ha, hle, h1, h2]⟩
  · intro ha hf has
    have hnotle : ¬ send_at.instant ≤ now := not_le.mpr hf
    have hguard : (assistant && pyFalsyOptStr from_chat_id) = false := by
      cases hA : assistant with
      | false => rfl
      | true => simp [has hA]
    refine ⟨fun ex hfind => schedule_message_found assistant db now freshId chat_id
      from_chat_id text send_at key source reason ex ha hf has hfind,
      fun hfind => ?_⟩
    refine ⟨?_, rfl, rfl⟩
    simp [schedule_message, ha, hnotle, hguard, hfind, repoCreate, scheduledRecord]
  · intro hcount m db' hok
    by_cases ha : send_at.aware = false
    · simp [schedule_message, ha] at hok
    · by_cases hle : send_at.instant ≤ now
      · simp [schedule_message, ha, hle] at hok
      · by_cases hg : (assistant && pyFalsyOptStr from_chat_id) = true
        · simp [schedule_message, ha, hle, hg] at hok
        · have hg' : (assistant && pyFalsyOptStr from_chat_id) = false := by
            simpa using hg
          cases hfind : find_by_idempotency_key db key with
          | some ex =>
            rw [schedule_message_found assistant db now freshId chat_id from_chat_id
              text send_at key source reason ex (by simpa using ha)
              (not_le.mp hle) (fun hA => by
                cases hF : pyFalsyOptStr from_chat_id with
                | false => rfl
                | true => rw [hA, hF] at hg'; cases hg') hfind] at hok
            have hm : ex = m ∧ db = db' := by
              have := hok
              simp at this
              exact this
            rcases hm with ⟨hm1, hm2⟩
            subst hm1; subst hm2
            refine ⟨hcount, hfind, ?_⟩
            intro assistant₂ now₂ freshId₂ chat₂ from₂ text₂ send₂ source₂ reason₂
              ha₂ hf₂ has₂
            exact schedule_message_found assistant₂ db now₂ freshId₂ chat₂ from₂
              text₂ send₂ key source₂ reason₂ ex ha₂ hf₂ has₂ hfind
          | none =>
            simp only [schedule_message, ha, if_false, hle, if_neg hle,
              if_neg (by simp [hg'] : ¬ (assistant && pyFalsyOptStr from_chat_id) = true),
              hfind, repoCreate] at hok
            rw [if_neg (by simp [ha])] at hok
            have hm := (Except.ok.injEq _ _).mp hok
            have hm1 := (Prod.mk.injEq _ _ _ _).mp hm
            have hz : db.countP (fun r => r.idempotency_key == key) = 0 := by
              rw [List.countP_eq_zero]
              intro x hx hpx
              have : find_by_idempotency_key db key ≠ none := by
                unfold find_by_idempotency_key
                intro hnone
                exact (List.find?_eq_none.mp hnone x hx) hpx
              exact this hfind
            rcases hm1 with ⟨hm1, hm2⟩
            refine ⟨?_, ?_, ?_⟩
            · rw [← hm2, List.countP_append, hz]
              simp
            · rw [← hm2, find_by_idempotency_key, List.find?_append]
              have : db.find? (fun r => r.idempotency_key == key) = none := hfind
              rw [this]
              simp [← hm1]
            · intro assistant₂ now₂ freshId₂ chat₂ from₂ text₂ send₂ source₂ reason₂
                ha₂ hf₂ has₂
              apply schedule_message_found
              · exact ha₂
              · exact hf₂
              · exact has₂
              · rw [← hm2, find_by_idempotency_key, List.find?_append]
                have : db.find? (fun r => r.idempotency_key == key) = none := hfind
                rw [this]
                simp [← hm1]

/-- The record created by the C1 witness. -/
def claim1Msg : ScheduledMessage :=
  { id := 7, chat_id := "c", from_chat_id := none, text := "hello",
    send_at := ⟨100, true⟩, status := .scheduled, locked_at := none,
    sent_at := none, attempt_count := 0, last_error := none,
    idempotency_key := "k", source := "whatsapp", reason := none,
    created_at := 0, updated_at := 0 }

/-- C1 witness: scheduling into an empty table creates the record; repeating
with the same idempotency key (and different other arguments) returns the same
record and leaves the table unchanged. -/
theorem claim1_witness :
    schedule_message false [] 0 7 "c" none "hello" ⟨100, true⟩ "k" "whatsapp" none
      = .ok (claim1Msg, [claim1Msg])
    ∧ schedule_message true [claim1Msg] 50 8 "c2" (some "s") "other" ⟨90, true⟩
        "k" "whatsapp" none = .ok (claim1Msg, [claim1Msg]) := by
  have h := claim1_schedule_message_spec false [] 0 7 "c" none "hello"
    ⟨100, true⟩ "k" "whatsapp" none
  have hcreate := ((h.2.1 rfl (by decide) (fun hh => by cases hh)).2 rfl).1
  have h' := claim1_schedule_message_spec true [claim1Msg] 50 8 "c2" (some "s")
    "other" ⟨90, true⟩ "k" "whatsapp" none
  have hrepeat := (h'.2.1 rfl (by decide) (fun _ => rfl)).1 claim1Msg rfl
  exact ⟨hcreate, hrepeat⟩

/-! ### C4: `send_message_if_due` -/

/-- With unique ids, `lock_for_sending` succeeds exactly when the addressed row
satisfies the lock guard. -/
theorem lock_true_iff (db : Db) (msgId : Nat) (now : Int) (r : ScheduledMessage)
    (hn : idsNodup db) (hget : get_by_id db msgId = some r) :
    (lock_for_sending db msgId now).2 = true
      ↔ lockCond (now - LOCK_TIMEOUT_SECONDS) r = true := by
  have hget' : db.find? (fun x => x.id == msgId) = some r := hget
  have hmem : r ∈ db := List.mem_of_find?_eq_some hget'
  have hid : r.id = msgId := by
    have := List.find?_some hget'
    simpa using this
  unfold lock_for_sending
  simp only [beq_iff_eq]
  constructor
  · intro hcount
    by_contra hnc
    have hz : db.countP
        (fun x => x.id == msgId && lockCond (now - LOCK_TIMEOUT_SECONDS) x) = 0 := by
      rw [List.countP_eq_zero]
      intro x hx hpx
      have hp := (Bool.and_eq_true _ _).mp hpx
      have hxid : x.id = msgId := by simpa using hp.1
      have : x = r := eq_of_mem_of_id_eq db x r hn hx hmem (hxid.trans hid.symm)
      rw [this] at hp
      exact hnc hp.2
    rw [hz] at hcount
    cases hcount
  · intro hc
    apply countP_eq_one_of_unique db _ r hn hmem
    · simp [hid, hc]
    · intro x hx
      have := (Bool.and_eq_true _ _).mp hx
      have hxid : x.id = msgId := by simpa using this.1
      rw [hxid, hid]

/-- With unique ids, at most one row matches an id-pinning predicate. -/
theorem countP_id_le_one (db : Db) (msgId : Nat) (q : ScheduledMessage → Bool)
    (hn : idsNodup db) :
    db.countP (fun x => x.id == msgId && q x) ≤ 1 := by
  induction db with
  | nil => simp
  | cons a t ih =>
    rw [idsNodup, List.map_cons, List.nodup_cons] at hn
    rw [List.countP_cons]
    by_cases hpa : ((a.id == msgId && q a) = true)
    · have haid : a.id = msgId := by
        have := (Bool.and_eq_true _ _).mp hpa
        simpa using this.1
      have hz : t.countP (fun x => x.id == msgId && q x) = 0 := by
        rw [List.countP_eq_zero]
        intro x hx hpx
        have hxid : x.id = msgId := by
          have := (Bool.and_eq_true _ _).mp hpx
          simpa using this.1
        exact hn.1 ((haid.trans hxid.symm) ▸ List.mem_map_of_mem ScheduledMessage.id hx)
      simp [hz, hpa]
    · rw [if_neg hpa]
      have := ih hn.2
      omega

/-- With unique ids, a failed `lock_for_sending` leaves the table unchanged. -/
theorem lock_false_db (db : Db) (msgId : Nat) (now : Int) (hn : idsNodup db)
    (h : (lock_for_sending db msgId now).2 = false) :
    (lock_for_sending db msgId now).1 = db := by
  unfold lock_for_sending at h ⊢
  simp only [beq_iff_eq] at h
  have hle := countP_id_le_one db msgId (lockCond (now - LOCK_TIMEOUT_SECONDS)) hn
  have hne : ¬ db.countP
      (fun x => x.id == msgId && lockCond (now - LOCK_TIMEOUT_SECONDS) x) = 1 := by
    simpa using h
  have hz : db.countP
      (fun x => x.id == msgId && lockCond (now - LOCK_TIMEOUT_SECONDS) x) = 0 := by
    omega
  simp only
  exact map_unmatched_id db _ _ hz

/-- The row as it looks after `lock_for_sending` and then `mark_sent`. -/
def lockedThenSent (r : ScheduledMessage) (now : Int) : ScheduledMessage :=
  { r with status := .sent, locked_at := some now, sent_at := some now,
           updated_at := now }

/-- The row as it looks after `lock_for_sending` and then `mark_failed e`. -/
def lockedThenFailed (r : ScheduledMessage) (e : String) (now : Int) :
    ScheduledMessage :=
  { r with status := .failed, locked_at := some now, last_error := some e,
           attempt_count := r.attempt_count + 1, updated_at := now }

/-- C4 counterexample: with assistant mode enabled and a due `SCHEDULED` record
lacking `from_chat_id` (possible for records created while assistant mode was
off), the lock succeeds but the guard `raise ValueError("from_chat_id is
required in assistant mode")` fires *before* the transport call: the record is
marked `FAILED` and the error re-raised with the transport never invoked —
contradicting the claim that past the guards the transport is always invoked
exactly once. -/
theorem claim4_counterexample :
    get_by_id [sampleMsg] 1 = some sampleMsg
    ∧ sampleMsg.status = .scheduled
    ∧ sampleMsg.send_at.instant ≤ 200
    ∧ (lock_for_sending [sampleMsg] 1 200).2 = true
    ∧ (send_message_if_due true [sampleMsg] 200 1 none).transportCalls = []
    ∧ (send_message_if_due true [sampleMsg] 200 1 none).raised
        = some "from_chat_id is required in assistant mode"
    ∧ (send_message_if_due true [sampleMsg] 200 1 none).db
        = [lockedThenFailed sampleMsg "from_chat_id is required in assistant mode" 200] := by
  refine ⟨rfl, rfl, by decide, by decide, rfl, rfl, rfl⟩

/-- C4 (amended): `send_message_if_due` returns with no transport call and no
state change when the record is missing, terminal (`CANCELLED`/`SENT`/`FAILED`),
not yet due, or the lock is lost; past those guards, if assistant mode is on and
the record lacks `from_chat_id` it is marked `FAILED` with that validation
message re-raised and no transport call; otherwise the transport is invoked
exactly once, a success marks the record `SENT` with `sent_at = now`, and a
transport exception marks it `FAILED` with `last_error` the error string and
re-raises it. -/
theorem claim4_dispatch_amended (assistant : Bool) (db : Db) (now : Int)
    (msgId : Nat) (tres : Option String) (hn : idsNodup db) :
    (get_by_id db msgId = none →
      send_message_if_due assistant db now msgId tres = ⟨db, [], none⟩)
    ∧ (∀ r, get_by_id db msgId = some r →
        ((r.status = .cancelled ∨ r.status = .sent ∨ r.status = .failed) →
          send_message_if_due assistant db now msgId tres = ⟨db, [], none⟩)
        ∧ (now < r.send_at.instant →
            send_message_if_due assistant db now msgId tres = ⟨db, [], none⟩)
        ∧ (¬ (r.status = .cancelled ∨ r.status = .sent ∨ r.status = .failed) →
            r.send_at.instant ≤ now →
            (lock_for_sending db msgId now).2 = false →
            send_message_if_due assistant db now msgId tres = ⟨db, [], none⟩)
        ∧ (¬ (r.status = .cancelled ∨ r.status = .sent ∨ r.status = .failed) →
            r.send_at.instant ≤ now →
            (lock_for_sending db msgId now).2 = true →
            (assistant = true → pyFalsyOptStr r.from_chat_id = false) →
            (tres = none →
              send_message_if_due assistant db now msgId tres
                = ⟨mark_sent (lock_for_sending db msgId now).1 msgId now,
                   [if assistant then pyStrOfOpt r.from_chat_id else r.chat_id], none⟩
              ∧ get_by_id (mark_sent (lock_for_sending db msgId now).1 msgId now) msgId
                  = some (lockedThenSent r now))
            ∧ (∀ e, tres = some e →
              send_message_if_due assistant db now msgId tres
                = ⟨mark_failed (lock_for_sending db msgId now).1 msgId e now,
                   [if assistant then pyStrOfOpt r.from_chat_id else r.chat_id], some e⟩
              ∧ get_by_id (mark_failed (lock_for_sending db msgId now).1 msgId e now) msgId
                  = some (lockedThenFailed r e now)))
        ∧ (¬ (r.status = .cancelled ∨ r.status = .sent ∨ r.status = .failed) →
            r.send_at.instant ≤ now →
            (lock_for_sending db msgId now).2 = true →
            assistant = true → pyFalsyOptStr r.from_chat_id = true →
            send_message_if_due assistant db now msgId tres
              = ⟨mark_failed (lock_for_sending db msgId now).1 msgId
                   "from_chat_id is required in assistant mode" now,
                 [], some "from_chat_id is required in assistant mode"⟩)) := by
  constructor
  · intro h
    simp [send_message_if_due, h]
  · intro r hget
    have hget' : db.find? (fun x => x.id == msgId) = some r := hget
    have hid : r.id = msgId := by
      have := List.find?_some hget'
      simpa using this
    have hdb1 : ∀ (hc : lockCond (now - LOCK_TIMEOUT_SECONDS) r = true),
        get_by_id (lock_for_sending db msgId now).1 msgId = some (lockRow now r) := by
      intro hc
      unfold lock_for_sending
      simp only
      rw [get_by_id, find?_id_map _ (fun x => by
        by_cases hx : (x.id == msgId && lockCond (now - LOCK_TIMEOUT_SECONDS) x) = true <;>
          simp [hx, lockRow])]
      rw [← get_by_id, hget]
      simp [hid, hc]
    refine ⟨?_, ?_, ?_, ?_, ?_⟩
    · intro hterm
      unfold send_message_if_due
      rw [hget]
      rcases hterm with h | h | h <;> simp [h]
    · intro hfut
      unfold send_message_if_due
      rw [hget]
      have : ¬ (r.status = .cancelled ∨ r.status = .sent ∨ r.status = .failed) ∨
          (r.status = .cancelled ∨ r.status = .sent ∨ r.status = .failed) := by tauto
      rcases this with h | h
      · simp [h, hfut]
      · rcases h with h | h | h <;> simp [h]
    · intro hterm hdue hlock
      unfold send_message_if_due
      rw [hget]
      simp only [if_neg hterm, if_neg (not_lt.mpr hdue)]
      have hdb := lock_false_db db msgId now hn hlock
      rcases hpair : lock_for_sending db msgId now with ⟨dbx, bx⟩
      rw [hpair] at hlock hdb
      simp at hlock hdb
      subst hlock
      simp [hdb]
    · intro hterm hdue hlock hfrom
      have hc : lockCond (now - LOCK_TIMEOUT_SECONDS) r = true :=
        (lock_true_iff db msgId now r hn hget).mp hlock
      have hgl := hdb1 hc
      have hgl' : (lock_for_sending db msgId now).1.find? (fun x => x.id == msgId)
          = some (lockRow now r) := hgl
      have hguard : (assistant && pyFalsyOptStr r.from_chat_id) = false := by
        cases hA : assistant with
        | false => rfl
        | true => simp [hfrom hA]
      constructor
      · intro htres
        subst htres
        constructor
        · unfold send_message_if_due
          rw [hget]
          simp only [if_neg hterm, if_neg (not_lt.mpr hdue)]
          rcases hpair : lock_for_sending db msgId now with ⟨dbx, bx⟩
          rw [hpair] at hlock
          simp at hlock
          subst hlock
          simp [hguard]
        · rw [mark_sent, get_by_id, find?_id_map _ (fun x => by
            unfold markSentRow
            by_cases hx : (x.id == msgId) = true <;> simp [hx])]
          rw [← get_by_id, hgl]
          simp [markSentRow, hid, lockRow, lockedThenSent]
      · intro e htres
        subst htres
        constructor
        · unfold send_message_if_due
          rw [hget]
          simp only [if_neg hterm, if_neg (not_lt.mpr hdue)]
          rcases hpair : lock_for_sending db msgId now with ⟨dbx, bx⟩
          rw [hpair] at hlock
          simp at hlock
          subst hlock
          simp [hguard]
        · rw [mark_failed, get_by_id, find?_id_map _ (fun x => by
            unfold markFailedRow
            by_cases hx : (x.id == msgId) = true <;> simp [hx])]
          rw [← get_by_id, hgl]
          simp [markFailedRow, hid, lockRow, lockedThenFailed]
    · intro hterm hdue hlock hA hF
      unfold send_message_if_due
      rw [hget]
      simp only [if_neg hterm, if_neg (not_lt.mpr hdue)]
      rcases hpair : lock_for_sending db msgId now with ⟨dbx, bx⟩
      rw [hpair] at hlock
      simp at hlock
      subst hlock
      simp [hA, hF]

/-- C4 witness: a due scheduled one-row table in non-assistant mode; transport
success marks it sent, transport failure marks it failed and re-raises. -/
theorem claim4_witness :
    send_message_if_due false [sampleMsg] 200 1 none
      = ⟨mark_sent (lock_for_sending [sampleMsg] 1 200).1 1 200,
         ["15550001111@s.whatsapp.net"], none⟩
    ∧ send_message_if_due false [sampleMsg] 200 1 (some "gateway 500")
      = ⟨mark_failed (lock_for_sending [sampleMsg] 1 200).1 1 "gateway 500" 200,
         ["15550001111@s.whatsapp.net"], some "gateway 500"⟩ := by
  have h := (claim4_dispatch_amended false [sampleMsg] 200 1 none
    (by decide)).2 sampleMsg rfl
  have h' := (claim4_dispatch_amended false [sampleMsg] 200 1 (some "gateway 500")
    (by decide)).2 sampleMsg rfl
  have h1 := ((h.2.2.2.1 (by decide) (by decide) (by decide)
    (fun hh => by cases hh)).1 rfl).1
  have h2 := ((h'.2.2.2.1 (by decide) (by decide) (by decide)
    (fun hh => by cases hh)).2 "gateway 500" rfl).1
  exact ⟨h1, h2⟩

/-! ### C7: natural-time parsing -/

/-- C7 counterexample: the input `"today"` is of none of the accepted formats
(`HH:MM`, `today HH:MM`, `tomorrow HH:MM`, `YYYY-MM-DD HH:MM`), yet it fails
with `"time required (use 'today HH:MM' or 'tomorrow HH:MM')"`, not with
`"invalid 'at' format"` — the `today`/`tomorrow` prefix branch intercepts it
before the catch-all error.  (Likewise `"25:00"` fails with
`"invalid time (use HH:MM)"`.) -/
theorem claim7_counterexample :
    parse_datetime "today" (some 0) 0
      = .error "time required (use \x27today HH:MM\x27 or \x27tomorrow HH:MM\x27)"
    ∧ "time required (use \x27today HH:MM\x27 or \x27tomorrow HH:MM\x27)"
        ≠ "invalid \x27at\x27 format (use YYYY-MM-DD HH:MM)"
    ∧ parse_datetime "25:00" (some 0) 0 = .error "invalid time (use HH:MM)" := by
  exact ⟨rfl, by decide, rfl⟩

/-- C7 (amended): with a configured timezone offset `off` and clock `nowUtc`
(local wall clock `nowUtc + off`), on a stripped input:
a `\d{1,2}:\d{2}`-shaped input with a valid time yields that wall time on
today's local date rolled forward one day when at or before now, and with an
out-of-range time fails with `"invalid time (use HH:MM)"`; an input starting
(case-insensitively) with `today`/`tomorrow` is handled by the day branch —
no second whitespace token fails with `"time required …"`, an invalid `H:M`
second token fails with `"invalid time (use HH:MM)"`, and a valid one yields
that wall time on today's date, or tomorrow's exactly when the first token is
`"tomorrow"`; an input parsing as `YYYY-MM-DD HH:MM` yields that wall time in
the configured timezone; and every remaining input fails with
`"invalid 'at' format (use YYYY-MM-DD HH:MM)"`. -/
theorem claim7_parse_amended (v : String) (off nowUtc : Int)
    (hstrip : pyStrip v = v) :
    (∀ h m, hmShape v = true → strptimeHM v = some (h, m) →
      parse_datetime v (some off) nowUtc
        = .ok ⟨(if Int.fdiv (nowUtc + off) 86400 * 86400 + ((h : Int) * 3600 + (m : Int) * 60)
                  ≤ nowUtc + off
                then Int.fdiv (nowUtc + off) 86400 * 86400 + ((h : Int) * 3600 + (m : Int) * 60) + 86400
                else Int.fdiv (nowUtc + off) 86400 * 86400 + ((h : Int) * 3600 + (m : Int) * 60))
                - off, true⟩)
    ∧ (hmShape v = true → strptimeHM v = none →
        parse_datetime v (some off) nowUtc = .error "invalid time (use HH:MM)")
    ∧ (hmShape v = false →
        (startsWithStr (pyLower v) "today" || startsWithStr (pyLower v) "tomorrow") = true →
        (∀ l, pySplit (pyLower v) = l → l.length ≤ 1 →
          parse_datetime v (some off) nowUtc
            = .error "time required (use \x27today HH:MM\x27 or \x27tomorrow HH:MM\x27)")
        ∧ (∀ p₀ p₁ rest, pySplit (pyLower v) = p₀ :: p₁ :: rest →
            (strptimeHM p₁ = none →
              parse_datetime v (some off) nowUtc = .error "invalid time (use HH:MM)")
            ∧ (∀ h m, strptimeHM p₁ = some (h, m) →
              parse_datetime v (some off) nowUtc
                = .ok ⟨(Int.fdiv (nowUtc + off) 86400
                        + (if p₀ = "tomorrow" then 1 else 0)) * 86400
                       + ((h : Int) * 3600 + (m : Int) * 60) - off, true⟩)))
    ∧ (hmShape v = false →
        (startsWithStr (pyLower v) "today" || startsWithStr (pyLower v) "tomorrow") = false →
        (∀ w, strptimeYMDHM v = some w →
          parse_datetime v (some off) nowUtc = .ok ⟨w - off, true⟩)
        ∧ (strptimeYMDHM v = none →
          parse_datetime v (some off) nowUtc
            = .error "invalid \x27at\x27 format (use YYYY-MM-DD HH:MM)")) := by
  refine ⟨?_, ?_, ?_, ?_⟩
  · intro h m hshape hhm
    simp [parse_datetime, hstrip, hshape, hhm]
  · intro hshape hhm
    simp [parse_datetime, hstrip, hshape, hhm]
  · intro hshape htod
    constructor
    · intro l hl hlen
      cases l with
      | nil => simp [parse_datetime, hstrip, hshape, htod, hl]
      | cons a t =>
        cases t with
        | nil => simp [parse_datetime, hstrip, hshape, htod, hl]
        | cons b t₂ => simp at hlen
    · intro p₀ p₁ rest hsplit
      constructor
      · intro hhm
        simp [parse_datetime, hstrip, hshape, htod, hsplit, hhm]
      · intro h m hhm
        simp [parse_datetime, hstrip, hshape, htod, hsplit, hhm]
  · intro hshape htod
    constructor
    · intro w hw
      simp [parse_datetime, hstrip, hshape, htod, hw]
    · intro hw
      simp [parse_datetime, hstrip, hshape, htod, hw]

/-- C7 witness: the amended theorem applied to concrete inputs of every branch
(clock 2024-01-01 12:00 UTC, timezone UTC). -/
theorem claim7_witness :
    parse_datetime "13:00" (some 0) 1704110400 = .ok ⟨1704114000, true⟩
    ∧ parse_datetime "11:00" (some 0) 1704110400 = .ok ⟨1704193200, true⟩
    ∧ parse_datetime "tomorrow 13:00" (some 0) 1704110400 = .ok ⟨1704200400, true⟩
    ∧ parse_datetime "2024-01-01 13:00" (some 0) 1704110400 = .ok ⟨1704114000, true⟩
    ∧ parse_datetime "garbage" (some 0) 1704110400
        = .error "invalid \x27at\x27 format (use YYYY-MM-DD HH:MM)" := by
  have h₁ := (claim7_parse_amended "13:00" 0 1704110400 rfl).1 13 0 rfl rfl
  have h₂ := (claim7_parse_amended "11:00" 0 1704110400 rfl).1 11 0 rfl rfl
  have h₃ := ((claim7_parse_amended "tomorrow 13:00" 0 1704110400 rfl).2.2.1
    (by decide) (by decide)).2 "tomorrow" "13:00" [] rfl |>.2 13 0 rfl
  have h₄ := ((claim7_parse_amended "2024-01-01 13:00" 0 1704110400 rfl).2.2.2
    (by decide) (by decide)).1 1704114000 rfl
  have h₅ := ((claim7_parse_amended "garbage" 0 1704110400 rfl).2.2.2
    (by decide) (by decide)).2 rfl
  refine ⟨?_, ?_, ?_, h₄, h₅⟩
  · rw [h₁]
    simp only [Except.ok.injEq, DTime.mk.injEq]
    decide
  · rw [h₂]
    simp only [Except.ok.injEq, DTime.mk.injEq]
    decide
  · rw [h₃]
    simp only [Except.ok.injEq, DTime.mk.injEq]
    decide

/-! ### C8: `!auth` request with admin notification -/

/-- `Nat.digitChar` of a value below ten is a digit. -/
theorem digitChar_isDigit (r : Nat) (h : r < 10) : (Nat.digitChar r).isDigit = true := by
  interval_cases r <;> decide

/-- Every character `Nat.toDigitsCore` emits over base ten is a digit. -/
theorem toDigitsCore_all_digits :
    ∀ (f n : Nat) (acc : List Char), (∀ c ∈ acc, c.isDigit = true) →
      ∀ c ∈ Nat.toDigitsCore 10 f n acc, c.isDigit = true := by
  intro f
  induction f with
  | zero =>
    intro n acc hacc c hc
    exact hacc c hc
  | succ f ih =>
    intro n acc hacc c hc
    simp only [Nat.toDigitsCore] at hc
    split at hc
    · rcases List.mem_cons.mp hc with h | h
      · subst h
        exact digitChar_isDigit _ (Nat.mod_lt _ (by omega))
      · exact hacc c h
    · refine ih (n / 10) (Nat.digitChar (n % 10) :: acc) ?_ c hc
      intro x hx
      rcases List.mem_cons.mp hx with h | h
      · subst h
        exact digitChar_isDigit _ (Nat.mod_lt _ (by omega))
      · exact hacc x h

/-- For a draw below 1 000 000, the generated code has exactly six characters,
all decimal digits. -/
theorem sixDigitCode_spec (n : Nat) (h : n < 1000000) :
    (sixDigitCode n).length = 6 ∧ (sixDigitCode n).data.all Char.isDigit = true := by
  have hlen : (Nat.repr n).length ≤ 6 :=
    Nat.repr_length n 6 (by decide) (by simpa using h)
  constructor
  · simp only [sixDigitCode, zfill6, String.length, String.data]
    simp only [List.length_append, List.length_replicate]
    simp only [String.length] at hlen
    omega
  · simp only [sixDigitCode, zfill6, List.all_eq_true]
    intro c hc
    rcases List.mem_append.mp hc with h | h
    · rw [List.eq_of_mem_replicate h]
      decide
    · have : (Nat.repr n).data = Nat.toDigitsCore 10 (n + 1) n [] := by
        cases n <;> rfl
      rw [this] at h
      exact toDigitsCore_all_digits (n + 1) n [] (by intro c hc; cases hc) c h

/-- All six identity fields are substrings of the formatted admin
notification. -/
theorem format_admin_auth_request_contains
    (code sender chat normalized name phone : String) :
    code.data <:+: (format_admin_auth_request code sender chat normalized name phone).data
    ∧ sender.data <:+: (format_admin_auth_request code sender chat normalized name phone).data
    ∧ chat.data <:+: (format_admin_auth_request code sender chat normalized name phone).data
    ∧ normalized.data <:+: (format_admin_auth_request code sender chat normalized name phone).data
    ∧ name.data <:+: (format_admin_auth_request code sender chat normalized name phone).data
    ∧ phone.data <:+: (format_admin_auth_request code sender chat normalized name phone).data := by
  refine ⟨⟨"🔐 New assistant auth request\n".data ++ "Code: ".data,
      "\n".data ++ "Sender: ".data ++ sender.data ++ "\n".data ++ "Chat: ".data ++
      chat.data ++ "\n".data ++ "Normalized: ".data ++ normalized.data ++ "\n".data ++
      "Name: ".data ++ name.data ++ "\n".data ++ "Phone: ".data ++ phone.data, ?_⟩,
    ⟨"🔐 New assistant auth request\n".data ++ "Code: ".data ++ code.data ++ "\n".data ++
      "Sender: ".data,
      "\n".data ++ "Chat: ".data ++ chat.data ++ "\n".data ++ "Normalized: ".data ++
      normalized.data ++ "\n".data ++ "Name: ".data ++ name.data ++ "\n".data ++
      "Phone: ".data ++ phone.data, ?_⟩,
    ⟨"🔐 New assistant auth request\n".data ++ "Code: ".data ++ code.data ++ "\n".data ++
      "Sender: ".data ++ sender.data ++ "\n".data ++ "Chat: ".data,
      "\n".data ++ "Normalized: ".data ++ normalized.data ++ "\n".data ++ "Name: ".data ++
      name.data ++ "\n".data ++ "Phone: ".data ++ phone.data, ?_⟩,
    ⟨"🔐 New assistant auth request\n".data ++ "Code: ".data ++ code.data ++ "\n".data ++
      "Sender: ".data ++ sender.data ++ "\n".data ++ "Chat: ".data ++ chat.data ++
      "\n".data ++ "Normalized: ".data,
      "\n".data ++ "Name: ".data ++ name.data ++ "\n".data ++ "Phone: ".data ++ phone.data, ?_⟩,
    ⟨"🔐 New assistant auth request\n".data ++ "Code: ".data ++ code.data ++ "\n".data ++
      "Sender: ".data ++ sender.data ++ "\n".data ++ "Chat: ".data ++ chat.data ++
      "\n".data ++ "Normalized: ".data ++ normalized.data ++ "\n".data ++ "Name: ".data,
      "\n".data ++ "Phone: ".data ++ phone.data, ?_⟩,
    ⟨"🔐 New assistant auth request\n".data ++ "Code: ".data ++ code.data ++ "\n".data ++
      "Sender: ".data ++ sender.data ++ "\n".data ++ "Chat: ".data ++ chat.data ++
      "\n".data ++ "Normalized: ".data ++ normalized.data ++ "\n".data ++ "Name: ".data ++
      name.data ++ "\n".data ++ "Phone: ".data, [], ?_⟩⟩ <;>
    simp [format_admin_auth_request, String.data_append, List.append_assoc]

/-- C8: a no-code `!auth` from an unapproved sender in a direct chat generates
a six-digit code, stores it in the pending-auth map under the normalized sender
id with the current instant, accepts the event, and — whenever an admin is
configured and the requester's normalized id differs from the admin's —
dispatches to the admin the formatted notification carrying the code and the
requester's identity (raw sender id, chat id, normalized id, display name,
phone), each of which occurs verbatim in the message text. -/
theorem claim8_auth_request (adminId : String) (approved : String → Bool)
    (instructions : List String) (pending₀ : List (String × PendingAuthEntry))
    (now : Int) (n : Nat) (chat_id sender_id message_id text : String)
    (contact_name : Option String) (contact_phone : PhoneField)
    (raw : Option (List RawContact))
    (hap : approved sender_id = false)
    (hcode : n < 1000000)
    (hauth : startsWithStr (pyLower (pyStrip text)) "!auth" = true)
    (hone : (pySplitOnce (pyStrip text)).length = 1) :
    (handle_assistant_auth adminId approved instructions pending₀ now n chat_id
      sender_id message_id text false contact_name contact_phone raw).accepted = true
    ∧ (handle_assistant_auth adminId approved instructions pending₀ now n chat_id
        sender_id message_id text false contact_name contact_phone raw).reason = none
    ∧ storeLookup (handle_assistant_auth adminId approved instructions pending₀ now n
        chat_id sender_id message_id text false contact_name contact_phone raw).pending
        (normalize_sender_id sender_id) = some ⟨sixDigitCode n, now⟩
    ∧ (sixDigitCode n).length = 6
    ∧ (sixDigitCode n).data.all Char.isDigit = true
    ∧ (adminId ≠ "" → normalize_sender_id sender_id ≠ normalize_sender_id adminId →
        (adminId, format_admin_auth_request (sixDigitCode n) sender_id chat_id
            (normalize_sender_id sender_id)
            (extract_requester_identity sender_id contact_name contact_phone raw).1
            (extract_requester_identity sender_id contact_name contact_phone raw).2)
          ∈ (handle_assistant_auth adminId approved instructions pending₀ now n chat_id
              sender_id message_id text false contact_name contact_phone raw).sent
        ∧ (sixDigitCode n).data <:+:
            (format_admin_auth_request (sixDigitCode n) sender_id chat_id
              (normalize_sender_id sender_id)
              (extract_requester_identity sender_id contact_name contact_phone raw).1
              (extract_requester_identity sender_id contact_name contact_phone raw).2).data
        ∧ sender_id.data <:+:
            (format_admin_auth_request (sixDigitCode n) sender_id chat_id
              (normalize_sender_id sender_id)
              (extract_requester_identity sender_id contact_name contact_phone raw).1
              (extract_requester_identity sender_id contact_name contact_phone raw).2).data
        ∧ chat_id.data <:+:
            (format_admin_auth_request (sixDigitCode n) sender_id chat_id
              (normalize_sender_id sender_id)
              (extract_requester_identity sender_id contact_name contact_phone raw).1
              (extract_requester_identity sender_id contact_name contact_phone raw).2).data
        ∧ (normalize_sender_id sender_id).data <:+:
            (format_admin_auth_request (sixDigitCode n) sender_id chat_id
              (normalize_sender_id sender_id)
              (extract_requester_identity sender_id contact_name contact_phone raw).1
              (extract_requester_identity sender_id contact_name contact_phone raw).2).data) := by
  have hsix := sixDigitCode_spec n hcode
  have hcontains := format_admin_auth_request_contains (sixDigitCode n) sender_id
    chat_id (normalize_sender_id sender_id)
    (extract_requester_identity sender_id contact_name contact_phone raw).1
    (extract_requester_identity sender_id contact_name contact_phone raw).2
  have hres : handle_assistant_auth adminId approved instructions pending₀ now n
      chat_id sender_id message_id text false contact_name contact_phone raw
    = ⟨true, none,
       pendingAuthSet pending₀ (normalize_sender_id sender_id) (sixDigitCode n) now,
       (if adminId = "" then []
        else if normalize_sender_id sender_id ≠ "" ∧
            normalize_sender_id sender_id = normalize_sender_id adminId then []
        else [(adminId, format_admin_auth_request (sixDigitCode n) sender_id chat_id
            (normalize_sender_id sender_id)
            (extract_requester_identity sender_id contact_name contact_phone raw).1
            (extract_requester_identity sender_id contact_name contact_phone raw).2)]) ++
       [(chat_id,
         "✅ Auth code generated. Ask the admin for it, then reply with the 6-digit code.")],
       []⟩ := by
    unfold handle_assistant_auth
    simp only [hap, hauth, hone]
    simp
  refine ⟨by rw [hres], by rw [hres], ?_, hsix.1, hsix.2, ?_⟩
  · rw [hres]
    exact storeLookup_storeSet pending₀ (normalize_sender_id sender_id) _
  · intro hadmin hdiff
    refine ⟨?_, hcontains.1, hcontains.2.1, hcontains.2.2.1, hcontains.2.2.2.1⟩
    rw [hres]
    have hc : ¬ (normalize_sender_id sender_id ≠ "" ∧
        normalize_sender_id sender_id = normalize_sender_id adminId) := by
      rintro ⟨h₁, h₂⟩
      exact hdiff h₂
    simp only [if_neg hadmin, if_neg hc]
    simp

/-- C8 witness: a concrete `!auth` with an admin configured; the notification
to the admin is dispatched. -/
theorem claim8_witness :
    (handle_assistant_auth "15559990000" (fun _ => false) [] [] 1000 42 "c1"
      "+1 555 123-4567" "m1" "!auth" false (some "Ann") (.one "+15551234567")
      none).accepted = true
    ∧ storeLookup (handle_assistant_auth "15559990000" (fun _ => false) [] [] 1000 42
        "c1" "+1 555 123-4567" "m1" "!auth" false (some "Ann") (.one "+15551234567")
        none).pending "15551234567" = some ⟨"000042", 1000⟩
    ∧ ("15559990000",
        format_admin_auth_request "000042" "+1 555 123-4567" "c1" "15551234567"
          "Ann" "+15551234567")
        ∈ (handle_assistant_auth "15559990000" (fun _ => false) [] [] 1000 42 "c1"
            "+1 555 123-4567" "m1" "!auth" false (some "Ann") (.one "+15551234567")
            none).sent := by
  have h := claim8_auth_request "15559990000" (fun _ => false) [] [] 1000 42 "c1"
    "+1 555 123-4567" "m1" "!auth" (some "Ann") (.one "+15551234567") none
    rfl (by decide) (by decide) (by decide)
  have hne : ("15559990000" : String) ≠ "" := by decide
  have hdiff : normalize_sender_id "+1 555 123-4567" ≠ normalize_sender_id "15559990000" := by
    decide
  refine ⟨h.1, ?_, ?_⟩
  · have := h.2.2.1
    simpa using this
  · have := (h.2.2.2.2.2 hne hdiff).1
    simpa using this

/-! ### C10: lapsed `send_at` during the `"text"` step -/

/-- The stored flow after the handler's entry write of `updated_at`. -/
def flowTouched (flow : FlowState) (timestamp : Int) : FlowState :=
  { flow with updated_at := timestamp }

/-- The stored flow after the handler moves the step back to `"when"`. -/
def flowBackToWhen (flow : FlowState) (timestamp : Int) : FlowState :=
  { flow with updated_at := timestamp, step := "when" }

/-- C10: in step `"text"` (with non-empty, non-`"cancel"` input), when
`schedule_message` raises exactly `"send_at must be in the future"` the flow is
not cleared: its step moves back to `"when"` keeping `to_chat_id` and
`request_id`, the reply is the time error followed by the when-prompt, and the
event is accepted; any other `ValueError` leaves the flow in step `"text"` and
replies `"❌ "` followed by the error text (also accepting the event). -/
theorem claim10_flow_text_error (assistant : Bool) (tz : Option Int)
    (tzName : String) (maxWindow : Int) (hoursShown : Nat) (now : Int)
    (freshId : Nat) (confirmationId : Option String) (flows₀ : FlowMap)
    (db : Db) (flow : FlowState) (chat_id message_id text : String)
    (contact_name : Option String) (contact_phone : PhoneField)
    (timestamp : Int) (sa : DTime) (e : String)
    (hstep : flow.step = "text")
    (hne : pyStrip text ≠ "")
    (hnc : pyLower (pyStrip text) ≠ "cancel")
    (hsa : flow.send_at = some sa)
    (hsched : schedule_message assistant db now freshId (pyStrOfOpt flow.to_chat_id)
        (some flow.sender_id) (pyStrip text) sa flow.request_id "whatsapp"
        (some ("whatsapp:" ++ flow.request_id)) = .error e) :
    (e = "send_at must be in the future" →
      handle_flow_step assistant tz tzName maxWindow hoursShown now freshId
          confirmationId flows₀ db flow chat_id message_id text contact_name
          contact_phone timestamp
        = some ⟨true, some e,
            storeSet (storeSet flows₀ (chat_id, flow.sender_id)
                (flowTouched flow timestamp))
              (chat_id, flow.sender_id) (flowBackToWhen flow timestamp),
            db, [(chat_id, "❌ Time must be in the future. " ++ when_prompt tzName)]⟩
      ∧ storeLookup (storeSet (storeSet flows₀ (chat_id, flow.sender_id)
              (flowTouched flow timestamp))
            (chat_id, flow.sender_id) (flowBackToWhen flow timestamp))
          (chat_id, flow.sender_id) = some (flowBackToWhen flow timestamp)
      ∧ (flowBackToWhen flow timestamp).step = "when"
      ∧ (flowBackToWhen flow timestamp).to_chat_id = flow.to_chat_id
      ∧ (flowBackToWhen flow timestamp).request_id = flow.request_id)
    ∧ (e ≠ "send_at must be in the future" →
      handle_flow_step assistant tz tzName maxWindow hoursShown now freshId
          confirmationId flows₀ db flow chat_id message_id text contact_name
          contact_phone timestamp
        = some ⟨true, some e,
            storeSet flows₀ (chat_id, flow.sender_id) (flowTouched flow timestamp),
            db, [(chat_id, "❌ " ++ e)]⟩
      ∧ storeLookup (storeSet flows₀ (chat_id, flow.sender_id)
            (flowTouched flow timestamp)) (chat_id, flow.sender_id)
          = some (flowTouched flow timestamp)
      ∧ (flowTouched flow timestamp).step = "text"
      ∧ (flowTouched flow timestamp).to_chat_id = flow.to_chat_id
      ∧ (flowTouched flow timestamp).request_id = flow.request_id) := by
  have hto : ({ flow with updated_at := timestamp } : FlowState).step ≠ "to" := by
    simp [hstep]
  have hwhen : ({ flow with updated_at := timestamp } : FlowState).step ≠ "when" := by
    simp [hstep]
  have htext : ({ flow with updated_at := timestamp } : FlowState).step = "text" := by
    simp [hstep]
  constructor
  · intro he
    subst he
    refine ⟨?_, storeLookup_storeSet _ _ _, by simp [flowBackToWhen], by
      simp [flowBackToWhen], by simp [flowBackToWhen]⟩
    unfold handle_flow_step
    simp only [if_neg hnc, if_neg hto, if_neg hwhen, htext, if_pos rfl,
      if_neg hne, hsa, hsched]
    simp [flowTouched, flowBackToWhen, hstep, hsa]
  · intro he
    refine ⟨?_, storeLookup_storeSet _ _ _, by simp [flowTouched, hstep], by
      simp [flowTouched], by simp [flowTouched]⟩
    unfold handle_flow_step
    simp only [if_neg hnc, if_neg hto, if_neg hwhen, htext, if_pos rfl,
      if_neg hne, hsa, hsched]
    simp [flowTouched, if_neg he, hstep, hsa]

/-- A concrete in-progress flow in step `"text"` whose stored `send_at` has
lapsed by the time the text arrives. -/
def claim10Flow : FlowState :=
  ⟨"text", "m0", "s1", 0, some "222@s.whatsapp.net", some ⟨100, true⟩⟩

/-- C10 witness: the lapsed-time error moves the concrete flow back to step
`"when"` with the time-error reply; a different validation error (naive
`send_at`) keeps the flow in step `"text"` and replies the error text. -/
theorem claim10_witness :
    handle_flow_step false (some 0) "UTC" 86400 24 200 9 none [] [] claim10Flow
      "c" "m1" "Hello" none .absent 5
    = some ⟨true, some "send_at must be in the future",
        [(("c", "s1"), flowBackToWhen claim10Flow 5)], [],
        [("c", "❌ Time must be in the future. " ++ when_prompt "UTC")]⟩
    ∧ handle_flow_step false (some 0) "UTC" 86400 24 200 9 none []
        [] { claim10Flow with send_at := some ⟨300, false⟩ } "c" "m1" "Hello"
        none .absent 5
    = some ⟨true, some "send_at must be timezone-aware (UTC)",
        [(("c", "s1"),
          flowTouched { claim10Flow with send_at := some ⟨300, false⟩ } 5)], [],
        [("c", "❌ send_at must be timezone-aware (UTC)")]⟩ := by
  have h₁ := claim10_flow_text_error false (some 0) "UTC" 86400 24 200 9 none []
    [] claim10Flow "c" "m1" "Hello" none .absent 5 ⟨100, true⟩
    "send_at must be in the future" rfl (by decide) (by decide) rfl rfl
  have h₂ := claim10_flow_text_error false (some 0) "UTC" 86400 24 200 9 none []
    [] { claim10Flow with send_at := some ⟨300, false⟩ } "c" "m1" "Hello" none
    .absent 5 ⟨300, false⟩ "send_at must be timezone-aware (UTC)" rfl (by decide)
    (by decide) rfl rfl
  refine ⟨?_, ?_⟩
  · have := (h₁.1 rfl).1
    simpa using this
  · have := (h₂.2 (by decide)).1
    simpa using this

end WhatsAppAssistant
